import Mathlib

/-!
Shallow embedding of the Keelie rule-based support chatbot
(`src/assets/keelie/keelie_runtime.py`, with the intent classifier of
`src/app.py` embedded separately) and proofs about it.  Text is modelled as
`String` / `List Char`; Python's `difflib.SequenceMatcher.ratio` is embedded
exactly (longest-matching-block recursion) over `ℚ`; the privacy regexes are
embedded through a small existence-semantics pattern matcher.
-/

namespace Keelie

/-- Whitespace characters of Python's `str.strip` / regex `\s` (ASCII). -/
def isWsChar (c : Char) : Bool :=
  c == ' ' || c == '\t' || c == '\n' || c == '\r' || c == '\x0b' || c == '\x0c'

def isDigitChar (c : Char) : Bool := '0' ≤ c && c ≤ '9'

def isLowerChar (c : Char) : Bool := 'a' ≤ c && c ≤ 'z'

def isUpperChar (c : Char) : Bool := 'A' ≤ c && c ≤ 'Z'

def isAlphaChar (c : Char) : Bool := isLowerChar c || isUpperChar c

def isAlnumChar (c : Char) : Bool := isAlphaChar c || isDigitChar c

/-- Word character of the regex class `\w` (ASCII inputs). -/
def isWordChar (c : Char) : Bool := isAlnumChar c || c == '_'

def lowerChar (c : Char) : Char :=
  if isUpperChar c then Char.ofNat (c.toNat + 32) else c

def upperChar (c : Char) : Char :=
  if isLowerChar c then Char.ofNat (c.toNat - 32) else c

def lowerStr (s : String) : String := String.mk (s.data.map lowerChar)

def upperStr (s : String) : String := String.mk (s.data.map upperChar)

/-- Python `str.strip()` on a char list. -/
def stripL (s : List Char) : List Char :=
  ((s.dropWhile isWsChar).reverse.dropWhile isWsChar).reverse

def stripStr (s : String) : String := String.mk (stripL s.data)

/-- Python `str.title()`: the first letter of each run of letters is uppercased,
the rest lowercased (ASCII). -/
def titleGo : Bool → List Char → List Char
  | _, [] => []
  | prevAlpha, c :: t =>
      (if isAlphaChar c then (if prevAlpha then lowerChar c else upperChar c) else c)
        :: titleGo (isAlphaChar c) t

def titleStr (s : String) : String := String.mk (titleGo false s.data)

def isPrefixL : List Char → List Char → Bool
  | [], _ => true
  | _ :: _, [] => false
  | a :: as, b :: bs => a == b && isPrefixL as bs

/-- Python's `needle in hay` substring test. -/
def containsSub (p : List Char) : List Char → Bool
  | [] => isPrefixL p []
  | c :: t => isPrefixL p (c :: t) || containsSub p t

def containsSubStr (p s : String) : Bool := containsSub p.data s.data

/-- Python `str.replace(old, new)`: all non-overlapping occurrences, left to
right (fuelled by the input length; each step consumes at least one char). -/
def replaceAllF (old nw : List Char) : Nat → List Char → List Char
  | 0, s => s
  | _ + 1, [] => []
  | f + 1, c :: t =>
      if decide (old ≠ []) && isPrefixL old (c :: t) then
        nw ++ replaceAllF old nw f (List.drop (old.length - 1) t)
      else
        c :: replaceAllF old nw f t

def replaceAll (old nw s : List Char) : List Char := replaceAllF old nw s.length s

/-- Regex `\s+` collapsed to a single space: each whitespace char becomes a
space unless the previous char already was whitespace. -/
def collapseWsGo : Bool → List Char → List Char
  | _, [] => []
  | prevWs, c :: t =>
      if isWsChar c then
        (if prevWs then [] else [' ']) ++ collapseWsGo true t
      else
        c :: collapseWsGo false t

/-- Characters `clean_text` keeps: regex `[^a-z0-9\s&-]` is replaced by a
space (the text is lowercase at that point). -/
def cleanKeep (c : Char) : Bool :=
  isLowerChar c || isDigitChar c || isWsChar c || c == '&' || c == '-'

/-- Embedding of `clean_text`: lowercase, replace disallowed chars by a space,
collapse whitespace, strip. -/
def clean_text (s : String) : String :=
  String.mk (stripL (collapseWsGo false
    ((s.data.map lowerChar).map (fun c => if cleanKeep c then c else ' '))))

/-- Regex `\b(of|for|a|an|the|to|me|my)\b` replaced by a space: each maximal
run of word chars equal to a stopword becomes a space (fuelled). -/
def stopWords : List (List Char) :=
  ["of".data, "for".data, "a".data, "an".data, "the".data, "to".data,
   "me".data, "my".data]

def dropStopsF : Nat → List Char → List Char
  | 0, s => s
  | _ + 1, [] => []
  | f + 1, c :: t =>
      if isWordChar c then
        let run := (c :: t).takeWhile isWordChar
        let rest := (c :: t).dropWhile isWordChar
        (if stopWords.contains run then [' '] else run) ++ dropStopsF f rest
      else
        c :: dropStopsF f t

def dropStops (s : List Char) : List Char := dropStopsF s.length s

/-- Filler phrases `normalize_for_product_match` deletes, in source order. -/
def junkPhrases : List String :=
  ["can you tell me", "could you tell me", "please", "what is", "whats",
   "the product code", "product code", "stock code", "item code", "sku",
   "code for", "code of"]

/-- Embedding of `normalize_for_product_match`. -/
def normalize_for_product_match (s : String) : String :=
  let t := clean_text s
  let t := junkPhrases.foldl (fun acc p => String.mk (replaceAll p.data " ".data acc.data)) t
  String.mk (stripL (collapseWsGo false (dropStops t.data)))

/-!
Embedding of `similarity` = `difflib.SequenceMatcher(None, a, b).ratio()`
with the constructor's default `autojunk=True`: `ratio` is `2 * M / (len a +
len b)` where `M` is the total size of the matching blocks found by
recursively taking the longest matching block (earliest in `a`, then in `b`)
and recursing on both sides.  `__chain_b` purges "popular" characters from
`b2j` when `len(b) ≥ 200` (more than `len(b) // 100 + 1` occurrences), so the
`j2len` table can never match them; `find_longest_match` then extends the best
block by equal characters on both ends — `isjunk` is `None` here, so `bjunk`
is empty, the two non-junk extension loops test only character equality (and
can walk through purged popular characters), and the two junk extension loops
never fire.  The float arithmetic is modelled in `ℚ`.
-/

/-- The characters `__chain_b` purges from `b2j` under the default
`autojunk`: when `b` has at least 200 elements, any character occurring more
than `len(b) // 100 + 1` times is popular.  Computed from the full second
sequence once (Python builds `b2j` once per matcher) and threaded unchanged
through the block recursion. -/
def autojunkPopular (b : List Char) (c : Char) : Bool :=
  decide (200 ≤ b.length) && decide (b.length / 100 + 1 < b.count c)

/-- One row of `find_longest_match`'s `j2len` table, as a function: the length
of the common suffix of `a[..i]` and `b[..j]` ending at row char `c`.  A
popular char has no `b2j` entry, so it never matches here. -/
def flmNext (pop : Char → Bool) (c : Char) (b : List Char) (row : Nat → Nat) :
    Nat → Nat :=
  fun j =>
    if j < b.length && (b.getD j ' ' == c) && !pop c then
      (if j = 0 then 0 else row (j - 1)) + 1
    else 0

/-- The inner scan of `find_longest_match`: walk `j` upward over the current
row, replacing the best block on a strictly larger length (Python's
`if k > bestsize`).  `f` is the number of columns still to visit. -/
def flmScan (i : Nat) (row : Nat → Nat) : Nat → Nat → Nat × Nat × Nat → Nat × Nat × Nat
  | _, 0, best => best
  | j, f + 1, best =>
      flmScan i row (j + 1) f
        (if best.2.2 < row j then (i + 1 - row j, j + 1 - row j, row j) else best)

/-- The outer loop of `find_longest_match` over the chars of `a`. -/
def flmLoop (pop : Char → Bool) (b : List Char) :
    Nat → List Char → (Nat → Nat) → Nat × Nat × Nat → Nat × Nat × Nat
  | _, [], _, best => best
  | i, c :: rest, row, best =>
      let nr := flmNext pop c b row
      flmLoop pop b (i + 1) rest nr (flmScan i nr 0 b.length best)

/-- The first (backward) extension loop of `find_longest_match`: widen the
best block while the characters before it are equal (`bjunk` is empty, so the
`not isbjunk(...)` test always passes).  Fuelled by `besti`, which each step
decrements. -/
def flmExtendBack (a b : List Char) : Nat → Nat × Nat × Nat → Nat × Nat × Nat
  | 0, best => best
  | f + 1, best =>
      if 0 < best.1 && 0 < best.2.1
          && (a.getD (best.1 - 1) ' ' == b.getD (best.2.1 - 1) ' ') then
        flmExtendBack a b f (best.1 - 1, best.2.1 - 1, best.2.2 + 1)
      else best

/-- The second (forward) extension loop of `find_longest_match`: widen the
best block while the characters after it are equal.  Fuelled by the room left
in `b`. -/
def flmExtendFwd (a b : List Char) : Nat → Nat × Nat × Nat → Nat × Nat × Nat
  | 0, best => best
  | f + 1, best =>
      if best.1 + best.2.2 < a.length && best.2.1 + best.2.2 < b.length
          && (a.getD (best.1 + best.2.2) ' ' == b.getD (best.2.1 + best.2.2) ' ') then
        flmExtendFwd a b f (best.1, best.2.1, best.2.2 + 1)
      else best

/-- Embedding of `SequenceMatcher.find_longest_match` (with `isjunk=None` the
junk extension loops are vacuous): the `j2len` sweep over non-popular
characters, then the backward and forward equal-character extensions.
Returns `(i, j, size)` of the chosen block. -/
def flm (pop : Char → Bool) (a b : List Char) : Nat × Nat × Nat :=
  flmExtendFwd a b b.length
    (flmExtendBack a b a.length (flmLoop pop b 0 a (fun _ => 0) (0, 0, 0)))

/-- The diagonal of the `j2len` table when both sequences are the same `v`:
the length of the maximal run of non-popular characters of `v` ending at
position `t - 1`.  Used to reason about `flm pop v v`. -/
def diagRun (pop : Char → Bool) (v : List Char) : Nat → Nat
  | 0 => 0
  | t + 1 => if pop (v.getD t ' ') then 0 else diagRun pop v t + 1

/-- Total size of the matching blocks: the longest block plus recursion on the
pieces left of it and right of it, with the popularity predicate of the full
`b` threaded through (Python reuses the one purged `b2j` in every subrange
call).  Fuelled; the fuel never runs out for the values `matchTotal` passes,
since each recursion strictly shortens `a`. -/
def matchTotalF (pop : Char → Bool) : Nat → List Char → List Char → Nat
  | 0, _, _ => 0
  | f + 1, a, b =>
      let t := flm pop a b
      if t.2.2 = 0 then 0
      else
        t.2.2 + matchTotalF pop f (a.take t.1) (b.take t.2.1)
          + matchTotalF pop f (a.drop (t.1 + t.2.2)) (b.drop (t.2.1 + t.2.2))

def matchTotal (a b : List Char) : Nat :=
  matchTotalF (autojunkPopular b) (a.length + b.length + 1) a b

/-- Embedding of `_calculate_ratio`: `2M/T`, and 1 when both inputs are
empty. -/
def ratioL (a b : List Char) : ℚ :=
  if a.length + b.length = 0 then 1
  else (2 * (matchTotal a b : ℚ)) / ((a.length : ℚ) + (b.length : ℚ))

/-- Embedding of `similarity(a, b)`. -/
def similarity (a b : String) : ℚ := ratioL a.data b.data

/-!
A small pattern language with existence semantics, used to embed the privacy
regexes.  `re.search` only feeds boolean tests in `contains_personal_info`, so
the set of reachable end positions is all that matters; greedy matching order
is irrelevant.  Bounded repetition only ever wraps a character class in these
patterns, so it is a primitive (`clsRep`) and the matcher needs no closure.
-/

inductive Pat where
  | cls : (Char → Bool) → Pat
  | clsRep : (Char → Bool) → Nat → Option Nat → Pat
  | eps : Pat
  | seq : Pat → Pat → Pat
  | alt : Pat → Pat → Pat
  | wb : Pat

/-- Word boundary `\b` at position `p` of `text`. -/
def wordBoundaryAt (text : List Char) (p : Nat) : Bool :=
  let lw := decide (0 < p) && isWordChar (text.getD (p - 1) ' ')
  let rw := decide (p < text.length) && isWordChar (text.getD p ' ')
  lw != rw

/-- Length of the maximal run of `f`-chars starting at `p`. -/
def runLen (f : Char → Bool) (text : List Char) (p : Nat) : Nat :=
  ((text.drop p).takeWhile f).length

/-- All end positions of a match of the pattern starting at `p`. -/
def ends (text : List Char) : Pat → Nat → List Nat
  | .cls f, p =>
      if h : p < text.length then
        if f (text.get ⟨p, h⟩) then [p + 1] else []
      else []
  | .clsRep f lo hi, p =>
      let r := runLen f text p
      let top := match hi with | none => r | some h => min h r
      if lo ≤ top then (List.range (top - lo + 1)).map (fun k => p + lo + k) else []
  | .eps, p => [p]
  | .seq r1 r2, p => ((ends text r1 p).map (fun q => ends text r2 q)).flatten.dedup
  | .alt r1 r2, p => (ends text r1 p ++ ends text r2 p).dedup
  | .wb, p => if wordBoundaryAt text p then [p] else []

/-- Embedding of `re.search(pattern, text)` as a boolean: a match exists at
some start position. -/
def reSearch (r : Pat) (text : List Char) : Bool :=
  (List.range (text.length + 1)).any (fun s => !(ends text r s).isEmpty)

def chEq (c : Char) : Pat := .cls (fun x => x == c)

/-- Case-insensitive literal char (the privacy regexes use `re.I`). -/
def chEqCI (c : Char) : Pat := .cls (fun x => lowerChar x == lowerChar c)

def strCI (s : String) : Pat := s.data.foldr (fun c acc => .seq (chEqCI c) acc) .eps

def optP (r : Pat) : Pat := .alt .eps r

def optCh (f : Char → Bool) : Pat := .clsRep f 0 (some 1)

def wsStar : Pat := .clsRep isWsChar 0 none

def wsPlus : Pat := .clsRep isWsChar 1 none

def altList : List Pat → Pat
  | [] => .eps
  | [r] => r
  | r :: rs => .alt r (altList rs)

def seqList : List Pat → Pat
  | [] => .eps
  | [r] => r
  | r :: rs => .seq r (seqList rs)

/-- Char class `[A-Z0-9._%+-]` under `re.I`. -/
def emailLocalCh (c : Char) : Bool :=
  isAlnumChar c || c == '.' || c == '_' || c == '%' || c == '+' || c == '-'

/-- Char class `[A-Z0-9.-]` under `re.I`. -/
def emailDomCh (c : Char) : Bool := isAlnumChar c || c == '.' || c == '-'

def wsDashCh (c : Char) : Bool := isWsChar c || c == '-'

def digitWsDashCh (c : Char) : Bool := isDigitChar c || isWsChar c || c == '-'

def alnumDashCh (c : Char) : Bool := isAlnumChar c || c == '-'

def colonHashCh (c : Char) : Bool := c == ':' || c == '#'

/-- `EMAIL_RE`: `\b[A-Z0-9._%+-]+@[A-Z0-9.-]+\.[A-Z]{2,}\b` (re.I). -/
def EMAIL_RE : Pat :=
  seqList [.wb, .clsRep emailLocalCh 1 none, chEq '@', .clsRep emailDomCh 1 none,
    chEq '.', .clsRep isAlphaChar 2 none, .wb]

/-- `PHONE_RE`:
`(?:(?:\+|00)\s?\d{1,3}[\s-]?)?(?:\(?\d{2,5}\)?[\s-]?)?\d[\d\s-]{7,}\d`. -/
def PHONE_RE : Pat :=
  seqList
    [optP (seqList [.alt (chEq '+') (seqList [chEq '0', chEq '0']),
        optCh isWsChar, .clsRep isDigitChar 1 (some 3), optCh wsDashCh]),
     optP (seqList [optCh (fun c => c == '('), .clsRep isDigitChar 2 (some 5),
        optCh (fun c => c == ')'), optCh wsDashCh]),
     .cls isDigitChar, .clsRep digitWsDashCh 7 none, .cls isDigitChar]

/-- `UK_POSTCODE_RE`: `\b(?:GIR\s?0AA|(?:[A-Z]{1,2}\d{1,2}[A-Z]?\s?\d[A-Z]{2}))\b`
(re.I). -/
def UK_POSTCODE_RE : Pat :=
  seqList [.wb,
    .alt (seqList [strCI "gir", optCh isWsChar, chEq '0', strCI "aa"])
      (seqList [.clsRep isAlphaChar 1 (some 2), .clsRep isDigitChar 1 (some 2),
        optCh isAlphaChar, optCh isWsChar, .cls isDigitChar,
        .cls isAlphaChar, .cls isAlphaChar]),
    .wb]

/-- `SENSITIVE_CUE_RE`: word-bounded alternation of account/order cues (re.I). -/
def SENSITIVE_CUE_RE : Pat :=
  seqList [.wb,
    altList
      [strCI "order", strCI "invoice", strCI "account", strCI "ref",
       strCI "reference", strCI "tracking",
       seqList [strCI "track", optP (strCI "ing"), wsStar,
         optP (.alt (strCI "no") (strCI "number"))],
       strCI "awb", strCI "consignment", strCI "waybill", strCI "dispatch",
       strCI "delivery",
       seqList [strCI "purchase", wsPlus, strCI "order"],
       seqList [strCI "po", wsStar, strCI "number"],
       seqList [chEqCI 'p', chEq '.', chEqCI 'o', chEq '.'],
       seqList [strCI "sales", wsPlus, strCI "order"],
       seqList [strCI "so", wsStar, strCI "number"],
       strCI "return", strCI "rma"],
    .wb]

/-- `ORDER_HASH_RE`: `\b(?:order\s*)?#\s*([A-Z0-9-]{5,})\b` (re.I). -/
def ORDER_HASH_RE : Pat :=
  seqList [.wb, optP (seqList [strCI "order", wsStar]), chEq '#', wsStar,
    .clsRep alnumDashCh 5 none, .wb]

/-- `INVOICE_CODE_RE`: `\b(?:inv|invoice)\s*[:#]?\s*([A-Z0-9-]{5,})\b` (re.I). -/
def INVOICE_CODE_RE : Pat :=
  seqList [.wb, .alt (strCI "inv") (strCI "invoice"), wsStar, optCh colonHashCh,
    wsStar, .clsRep alnumDashCh 5 none, .wb]

/-- `PO_SO_RE`: `\b(?:po|p\.o\.|so|sales\s*order)\s*[:#]?\s*([A-Z0-9-]{4,})\b`
(re.I). -/
def PO_SO_RE : Pat :=
  seqList [.wb,
    altList [strCI "po", seqList [chEqCI 'p', chEq '.', chEqCI 'o', chEq '.'],
      strCI "so", seqList [strCI "sales", wsStar, strCI "order"]],
    wsStar, optCh colonHashCh, wsStar, .clsRep alnumDashCh 4 none, .wb]

/-- `UPS_1Z_RE`: `\b1Z[0-9A-Z]{8,}\b` (re.I). -/
def UPS_1Z_RE : Pat :=
  seqList [.wb, chEq '1', chEqCI 'z', .clsRep isAlnumChar 8 none, .wb]

/-- `LONG_ALNUM_RE`: `\b[A-Z0-9]{10,}\b` (re.I). -/
def LONG_ALNUM_RE : Pat := seqList [.wb, .clsRep isAlnumChar 10 none, .wb]

/-- `LONG_DIGITS_RE`: `\b\d{6,}\b`. -/
def LONG_DIGITS_RE : Pat := seqList [.wb, .clsRep isDigitChar 6 none, .wb]

/-- `STREET_WORD_RE`: word-bounded street-type words (re.I). -/
def STREET_WORD_RE : Pat :=
  seqList [.wb,
    altList
      [strCI "road", strCI "rd", strCI "street", strCI "st", strCI "lane",
       strCI "ln", strCI "avenue", strCI "ave", strCI "drive", strCI "dr",
       strCI "close", strCI "cl", strCI "way", strCI "court", strCI "ct",
       strCI "crescent", strCI "cres", strCI "place", strCI "pl", strCI "park",
       seqList [strCI "garden", optP (chEqCI 's')], strCI "grove",
       strCI "terrace", strCI "ter"],
    .wb]

/-- `HOUSE_NUM_RE`: `\b\d{1,4}[A-Z]?\b` (no re.I: uppercase letter only). -/
def HOUSE_NUM_RE : Pat :=
  seqList [.wb, .clsRep isDigitChar 1 (some 4), optCh isUpperChar, .wb]

/-- Embedding of `contains_personal_info`. -/
def contains_personal_info (text : String) : Bool :=
  let t := text.data
  if t.all isWsChar then false
  else
    reSearch EMAIL_RE t || reSearch PHONE_RE t || reSearch UK_POSTCODE_RE t
      || (reSearch HOUSE_NUM_RE t && reSearch STREET_WORD_RE t)
      || (reSearch SENSITIVE_CUE_RE t
        && (reSearch ORDER_HASH_RE t || reSearch INVOICE_CODE_RE t
          || reSearch PO_SO_RE t || reSearch UPS_1Z_RE t
          || reSearch LONG_DIGITS_RE t || reSearch LONG_ALNUM_RE t))

/-! Bot identity, thresholds and static reply texts of `keelie_runtime.py`. -/

def BOT_NAME : String := "Keelie"

def COMPANY_NAME : String := "Keel Toys"

def CUSTOMER_SERVICE_URL : String := "https://www.keeltoys.com/contact-us/"

def MIN_ORDER_FIRST : Nat := 500

def MIN_ORDER_REPEAT : Nat := 250

def STOCK_HIGH : ℚ := 3 / 4

def STOCK_MED : ℚ := 11 / 20

def PRODUCTION_INFO : String :=
  "Our toys are produced across a small number of trusted manufacturing partners:\n" ++
  "• 95% in China\n" ++
  "• 3% in Indonesia\n" ++
  "• 2% in Cambodia"

def HELP_OVERVIEW : String :=
  "I can help with:\n" ++
  "• **Minimum order values** (e.g. “minimum order value”)\n" ++
  "• **Stock codes / SKUs** (e.g. “stock code for Polar Bear Plush 20cm”)\n" ++
  "• **Keeleco® sustainability & recycled materials**\n" ++
  "• **Where our toys are made**\n" ++
  "• **Delivery & tracking** (e.g. “where is my order?”)\n" ++
  "• **Invoices** (e.g. “download an invoice”)\n\n" ++
  "What would you like to ask?"

def KEELECO_OVERVIEW : String :=
  "Keeleco® is our eco-focused soft toy range made using **100% recycled polyester**.\n\n" ++
  "Key facts:\n" ++
  "• The outer plush and inner fibre fill are made from **recycled plastic waste**.\n" ++
  "• As a guide, around **10 recycled 500ml bottles** can produce enough fibre for an **18cm** toy.\n" ++
  "• Our Keel logo + hangtags use **FSC card** and are attached with **cotton**.\n" ++
  "• Shipping cartons are recycled and sealed with **paper tape**.\n" ++
  "• Keeleco is made in an **ethically audited** factory.\n\n" ++
  "If you tell me which Keeleco sub-range you mean (e.g. *Keeleco Dinosaurs*), I can share details."

def privacy_warning : String :=
  "For your privacy, please don’t share personal or account details here " ++
  "(such as email addresses, phone numbers, delivery addresses, or order/invoice references).\n\n" ++
  "Our customer service team can help you securely here:\n" ++ CUSTOMER_SERVICE_URL

def minimum_order_response : String :=
  "Our minimum order values are:\n" ++
  "• £" ++ toString MIN_ORDER_FIRST ++ " for first-time buyers\n" ++
  "• £" ++ toString MIN_ORDER_REPEAT ++ " for repeat buyers\n\n" ++
  "If you’re unsure whether you qualify as a first-time or repeat buyer, " ++
  "our customer service team can help:\n" ++ CUSTOMER_SERVICE_URL

def fallback_response : String :=
  "I’m not able to help with that just now.\n\n" ++
  "Right now I *can* help with:\n" ++
  "• **Minimum order values** (try: “What’s the minimum order value?”)\n" ++
  "• **Stock codes / SKUs** (try: “Stock code for Polar Bear Plush 20cm”)\n" ++
  "• **Keeleco® recycled materials & sustainability** (try: “Tell me about Keeleco”)\n" ++
  "• **Where our toys are made** (try: “Where are your toys produced?”)\n" ++
  "• **Delivery & tracking guidance** (try: “How do I track my order?”)\n" ++
  "• **Invoices** (try: “How do I download an invoice?”)\n\n" ++
  "Which of those do you need?"

/-! Topic detectors (each cleans its own input, as in the source). -/

def deliveryTerms : List String :=
  ["arrive", "arrival", "delivery", "eta", "tracking", "track", "order",
   "dispatch", "shipped"]

/-- Embedding of `is_delivery_question`. -/
def is_delivery_question (text : String) : Bool :=
  let t := clean_text text
  (containsSubStr "when" t && deliveryTerms.any (fun term => containsSubStr term t))
    || ["where is my order", "track my order", "order status"].any
        (fun p => containsSubStr p t)

/-- Embedding of `is_stock_code_request`. -/
def is_stock_code_request (text : String) : Bool :=
  let t := clean_text text
  ["product code", "stock code", "sku", "item code", "code for", "code of"].any
    (fun x => containsSubStr x t)

def minOrderTriggers : List String :=
  ["minimum order", "minimum spend", "minimum purchase",
   "min order", "min spend", "order minimum", "minimum order price",
   "minimum value", "minimum order value", "minimum spend value",
   "minimum order amount", "minimum spend amount",
   "minimum basket", "minimum basket value",
   "minimum checkout", "minimum checkout value",
   "what is the minimum", "whats the minimum", "what\x27s the minimum",
   "opening order minimum", "first order minimum", "repeat order minimum",
   "starting order", "trade minimum", "trade order minimum",
   "moq", "m o q", "minimum order quantity"]

/-- Embedding of `is_minimum_order_question`. -/
def is_minimum_order_question (text : String) : Bool :=
  let t := clean_text text
  minOrderTriggers.any (fun x => containsSubStr x t)

def productionPhrases : List String :=
  ["where are your toys produced", "where are your toys made",
   "where are your toys manufactured", "where are the toys produced",
   "where are the toys made", "where are the toys manufactured",
   "where are they produced", "where are they made",
   "where are they manufactured"]

/-- Embedding of `is_production_question`. -/
def is_production_question (text : String) : Bool :=
  let t := clean_text text
  productionPhrases.any (fun p => containsSubStr p t)
    || (containsSubStr "where" t
      && (containsSubStr "toy" t || containsSubStr "toys" t)
      && ["produced", "made", "manufactured"].any (fun w => containsSubStr w t))

def ecoTriggers : List String :=
  ["eco", "eco friendly", "eco-friendly", "sustainable", "sustainability",
   "environment", "environmentally friendly", "recycled", "recycle",
   "recyclable", "plastic bottles", "fsc", "keeleco", "keel eco"]

/-- Embedding of `is_eco_question`. -/
def is_eco_question (text : String) : Bool :=
  let t := clean_text text
  ecoTriggers.any (fun x => containsSubStr x t)

def greetingsList : List String :=
  ["hi", "hello", "hey", "hiya", "yo", "good morning", "good afternoon",
   "good evening"]

/-- Embedding of `is_greeting`: exact greeting or greeting followed by more
words. -/
def is_greeting (text : String) : Bool :=
  let t := clean_text text
  greetingsList.contains t
    || greetingsList.any (fun g => isPrefixL (g ++ " ").data t.data)

/-- Modelled from the spec: the help/capabilities topic detector
`is_help_question`, which `respond` and `_handle_stock_choice_reply` call but
no file under `src/` defines.  Per the spec's "Help/capabilities question →
static capability menu", it fires on capability-question phrases in the
normalized text (the phrases of the runtime's help intent, plus the word
"help" itself). -/
def is_help_question (text : String) : Bool :=
  let t := clean_text text
  ["what can you do", "what can you help with", "how can you help",
   "what can i ask", "help"].any (fun x => containsSubStr x t)

/-! Stock-code extraction: `re.findall(r"\b[A-Z]{1,5}-?[A-Z]{0,5}-?\d{2,4}\b",
text.upper())`, first match.  The nested descending enumeration reproduces the
regex engine's leftmost match with greedy backtracking. -/

/-- Consume exactly `k` chars of class `f`. -/
def takeClass (f : Char → Bool) : Nat → List Char → Option (List Char × List Char)
  | 0, l => some ([], l)
  | _ + 1, [] => none
  | k + 1, c :: t =>
      if f c then (takeClass f k t).map (fun pr => (c :: pr.1, pr.2)) else none

/-- Consume a dash when `d` asks for one (`-?` with/without the dash). -/
def takeDash (d : Bool) (l : List Char) : Option (List Char × List Char) :=
  if d then
    match l with
    | '-' :: t => some (['-'], t)
    | _ => none
  else some ([], l)

/-- The stock-code pattern anchored at position `p` of `u`; returns the
matched string.  Quantifier alternatives are tried greedily (larger counts and
present dashes first), matching the regex engine's backtracking order. -/
def stockCodeAt (u : List Char) (p : Nat) : Option String :=
  if !wordBoundaryAt u p then none
  else
    [5, 4, 3, 2, 1].findSome? (fun a =>
      (takeClass isUpperChar a (u.drop p)).bind (fun pr1 =>
        [true, false].findSome? (fun d1 =>
          (takeDash d1 pr1.2).bind (fun pr2 =>
            [5, 4, 3, 2, 1, 0].findSome? (fun b =>
              (takeClass isUpperChar b pr2.2).bind (fun pr3 =>
                [true, false].findSome? (fun d2 =>
                  (takeDash d2 pr3.2).bind (fun pr4 =>
                    [4, 3, 2].findSome? (fun n =>
                      (takeClass isDigitChar n pr4.2).bind (fun pr5 =>
                        let matched := pr1.1 ++ pr2.1 ++ pr3.1 ++ pr4.1 ++ pr5.1
                        if wordBoundaryAt u (p + matched.length) then
                          some (String.mk matched)
                        else none))))))))))

/-- Embedding of `extract_stock_code`: leftmost match on the uppercased
text. -/
def extract_stock_code (text : String) : Option String :=
  let u := (upperStr text).data
  (List.range (u.length + 1)).findSome? (stockCodeAt u)

/-! Stock resolver: catalog rows, session state and the pending-choice state
machine of `keelie_runtime.py`. -/

/-- A catalog row (the dicts of `STOCK_ROWS`). -/
structure Row where
  product_name : String
  stock_code : String
deriving DecidableEq, Repr

/-- The three global pending-lookup variables, as an explicit session state. -/
structure SessionState where
  pendingStockLookup : Bool
  pendingStockChoices : List Row
  pendingStockQuery : String
deriving DecidableEq, Repr

/-- Embedding of `_clear_pending_stock` (the state it leaves behind). -/
def clearedState : SessionState := ⟨false, [], ""⟩

/-- The row's product name as `_top_stock_candidates` scores it:
`str(row.get("product_name", "")).lower().strip()`. -/
def prepName (r : Row) : String := stripStr (lowerStr r.product_name)

/-- The reply `f"The stock code for **{product}** is **{code}**."`. -/
def stockReplyFor (r : Row) : String :=
  "The stock code for **" ++ titleStr (stripStr r.product_name) ++ "** is **"
    ++ stripStr r.stock_code ++ "**."

/-- Stable insertion (descending by score): a new element passes every element
with a score `≥` its own, so equal scores keep first-seen order. -/
def insScored (x : ℚ × Row) : List (ℚ × Row) → List (ℚ × Row)
  | [] => [x]
  | y :: ys => if y.1 < x.1 then x :: y :: ys else y :: insScored x ys

/-- Stable sort, descending by score: the embedding of
`scored.sort(key=lambda x: x[0], reverse=True)`. -/
def sortScored (l : List (ℚ × Row)) : List (ℚ × Row) :=
  l.foldl (fun acc x => insScored x acc) []

/-- The `(score, row)` list `_top_stock_candidates` builds before sorting
(rows with an empty prepared name are skipped). -/
def scoredRows (rows : List Row) (query : String) : List (ℚ × Row) :=
  let q := normalize_for_product_match query
  rows.filterMap (fun row =>
    let name := prepName row
    if name = "" then none else some (similarity q name, row))

/-- Embedding of `_top_stock_candidates` (with its default `limit=3`). -/
def _top_stock_candidates (rows : List Row) (query : String) : List (ℚ × Row) :=
  (sortScored (scoredRows rows query)).take 3

/-- Embedding of `_offer_stock_choices`. -/
def _offer_stock_choices (choices : List Row) : String :=
  let header :=
    "I found a few close matches — which one did you mean? Reply with **1**, **2**, or **3**:"
  let lines := choices.enum.map (fun p =>
    toString (p.1 + 1) ++ ". **" ++ titleStr (stripStr p.2.product_name)
      ++ "** (stock code **" ++ stripStr p.2.stock_code ++ "**)")
  String.intercalate "\n" (header :: lines)

/-- First word-bounded digit 1–3 of the text: `re.search(r"\b([1-3])\b", t)`.
Carries the previous char for the left boundary. -/
def findChoiceDigitGo : Option Char → List Char → Option Nat
  | _, [] => none
  | prev, c :: t =>
      if (c == '1' || c == '2' || c == '3')
          && (match prev with | none => true | some d => !isWordChar d)
          && (match t with | [] => true | d :: _ => !isWordChar d) then
        some (c.toNat - '0'.toNat)
      else findChoiceDigitGo (some c) t

def findChoiceDigit (t : String) : Option Nat := findChoiceDigitGo none t.data

/-- Fuzzy selection among the pending candidates (the second half of
`_handle_stock_choice_reply`): best similarity of the normalized reply against
each candidate name, accepted at `≥ 0.60`, else the list is re-offered with
the pending state kept. -/
def stockChoiceFuzzy (st : SessionState) (user_text : String) : Option String × SessionState :=
  let best := st.pendingStockChoices.foldl
    (fun acc row =>
      let s := similarity (normalize_for_product_match user_text) (prepName row)
      if acc.1 < s then (s, some row) else acc)
    ((0 : ℚ), (none : Option Row))
  match best.2 with
  | some row =>
      if best.1 ≥ 3 / 5 then (some (stockReplyFor row), clearedState)
      else (some (_offer_stock_choices st.pendingStockChoices), st)
  | none => (some (_offer_stock_choices st.pendingStockChoices), st)

/-- Embedding of `_handle_stock_choice_reply`: `none` in the first component
means "not handled, fall through" (the state may still have been cleared by
the abandon branch). -/
def _handle_stock_choice_reply (st : SessionState) (user_text : String) :
    Option String × SessionState :=
  if !st.pendingStockLookup || st.pendingStockChoices.isEmpty then (none, st)
  else
    let t := clean_text user_text
    if is_minimum_order_question t || is_delivery_question t || is_eco_question t
        || is_production_question t || is_help_question t then
      (none, clearedState)
    else
      match findChoiceDigit t with
      | some d =>
          let idx := d - 1
          if h : idx < st.pendingStockChoices.length then
            (some (stockReplyFor (st.pendingStockChoices.get ⟨idx, h⟩)), clearedState)
          else stockChoiceFuzzy st user_text
      | none => stockChoiceFuzzy st user_text

/-- Embedding of `lookup_stock_code` (the globals it reads and writes are the
explicit `rows` and state). -/
def lookup_stock_code (rows : List Row) (st : SessionState) (user_text : String) :
    String × SessionState :=
  if rows.isEmpty then
    ("I can’t access stock codes right now (stock_codes.xlsx may be missing or unreadable). "
      ++ "Please contact customer service here:\n" ++ CUSTOMER_SERVICE_URL, st)
  else
    match _top_stock_candidates rows user_text with
    | [] =>
        ("I’m not sure which product you mean. Could you please provide the product name?", st)
    | (best_score, best_row) :: restTop =>
        if best_score ≥ STOCK_HIGH then (stockReplyFor best_row, clearedState)
        else if best_score ≥ STOCK_MED then
          let choices := ((best_score, best_row) :: restTop).map Prod.snd
          (_offer_stock_choices choices, ⟨true, choices, user_text⟩)
        else
          ("I’m not sure which product you mean. Could you please provide the exact product name (and size, if relevant)?",
            clearedState)

/-- Embedding of `lookup_product_by_code`. -/
def lookup_product_by_code (rows : List Row) (code : String) : Option String :=
  if rows.isEmpty then none
  else
    let c := stripStr (upperStr code)
    (rows.find? (fun row => stripStr (upperStr row.stock_code) == c)).map
      (fun row =>
        "The product with stock code **" ++ c ++ "** is **"
          ++ titleStr (stripStr row.product_name) ++ "**.")

/-! Collections / ranges table (`COLLECTION_FACTS`), in dict insertion
order. -/

structure CollectionEntry where
  key : String
  title : String
  facts : List String
deriving DecidableEq, Repr

def COLLECTION_FACTS : List CollectionEntry :=
  [⟨"keeleco", "Keeleco®",
    ["Eco-focused range made from **100% recycled polyester** (plush + fibre fill).",
     "Around **10 recycled 500ml bottles** can produce enough fibre for an **18cm** toy (guide figure).",
     "**FSC card** hangtags attached with **cotton**.",
     "Recycled cartons sealed with **paper tape**.",
     "Made in an **ethically audited** factory."]⟩,
   ⟨"keeleco adoptable world", "Keeleco Adoptable World",
    ["Part of the Keeleco® family: made using **100% recycled polyester**.",
     "Designed as a character-led animal collection with the Keeleco eco story highlighted on hangtags."]⟩,
   ⟨"keeleco arctic & sealife", "Keeleco Arctic & Sealife",
    ["Part of Keeleco®: made using **100% recycled polyester**.",
     "Arctic and sea-life themed characters with Keeleco eco labelling."]⟩,
   ⟨"keeleco baby", "Keeleco Baby",
    ["Keeleco® baby-themed collection made using **100% recycled polyester**.",
     "Designed for gentle gifting and early-years appeal while keeping the Keeleco eco materials story."]⟩,
   ⟨"keeleco botanical garden", "Keeleco Botanical Garden",
    ["Part of Keeleco®: made using **100% recycled polyester**.",
     "Botanical/plant-inspired characters within the Keeleco eco range."]⟩,
   ⟨"keeleco british wildlife & farm", "Keeleco British Wildlife & Farm",
    ["Part of Keeleco®: made using **100% recycled polyester**.",
     "British breakup: wildlife and farm themed characters, with Keeleco eco labelling and FSC hangtags."]⟩,
   ⟨"keeleco collectables", "Keeleco Collectables",
    ["Part of Keeleco®: made using **100% recycled polyester**.",
     "Collectable-style characters with the Keeleco eco materials story."]⟩,
   ⟨"keeleco dinosaurs", "Keeleco Dinosaurs",
    ["Part of Keeleco®: made using **100% recycled polyester**.",
     "Dinosaur-themed characters within the Keeleco eco range."]⟩,
   ⟨"keeleco enchanted world", "Keeleco Enchanted World",
    ["Part of Keeleco®: made using **100% recycled polyester**.",
     "Fantasy-inspired characters with the Keeleco eco labelling."]⟩,
   ⟨"keeleco handpuppets", "Keeleco Handpuppets",
    ["Part of Keeleco®: made using **100% recycled polyester**.",
     "Hand puppet play format within the Keeleco eco range."]⟩,
   ⟨"keeleco jungle cats", "Keeleco Jungle Cats",
    ["Part of Keeleco®: made using **100% recycled polyester**.",
     "Big-cat themed characters within the Keeleco eco range."]⟩,
   ⟨"keeleco monkeys & apes", "Keeleco Monkeys & Apes",
    ["Part of Keeleco®: made using **100% recycled polyester**.",
     "Monkey and ape themed characters; Keeleco eco story shown on hangtags."]⟩,
   ⟨"keeleco pets", "Keeleco Pets",
    ["Part of Keeleco®: made using **100% recycled polyester**.",
     "Pet-themed characters within the Keeleco eco range."]⟩,
   ⟨"keeleco pink", "Keeleco Pink",
    ["Part of Keeleco®: made using **100% recycled polyester**.",
     "A colour-led Keeleco selection with the same eco materials story."]⟩,
   ⟨"keeleco snackies", "Keeleco Snackies",
    ["Part of Keeleco®: made using **100% recycled polyester**.",
     "Food/snack-inspired characters within the Keeleco eco range."]⟩,
   ⟨"keeleco teddies", "Keeleco Teddies",
    ["Part of Keeleco®: made using **100% recycled polyester**.",
     "Teddy-led collection with the Keeleco eco materials story."]⟩,
   ⟨"keeleco wild", "Keeleco Wild",
    ["Part of Keeleco®: made using **100% recycled polyester**.",
     "Wildlife-themed characters within the Keeleco eco range."]⟩,
   ⟨"love to hug", "Love To Hug",
    ["A Keel Toys collection focused on soft, huggable plush characters.",
     "If you tell me the character/size, I can help check stock codes (if available in the Excel)."]⟩,
   ⟨"motsu", "Motsu",
    ["A Keel Toys character collection with its own distinct style and designs.",
     "If you share the exact product name, I can help find the stock code (if listed)."]⟩,
   ⟨"pippins", "Pippins",
    ["A Keel Toys collection featuring cute character-led soft toys.",
     "If you share the product name, I can look up the stock code (if present in your Excel)."]⟩,
   ⟨"pugsley & friends", "Pugsley & Friends",
    ["A Keel Toys character collection in the ‘Friends’ style range.",
     "If you share the specific product name, I can help locate the stock code (if listed)."]⟩,
   ⟨"seasonal", "Seasonal",
    ["Seasonal collections cover time-of-year themes (e.g., holiday gifting and seasonal characters).",
     "If you tell me which season/character, I can help with stock codes if they’re in your Excel."]⟩,
   ⟨"signature cuddle puppies", "Signature Cuddle Puppies",
    ["A Signature collection focused on puppy characters in a ‘cuddle’ style.",
     "Share a product name/size and I can help identify the stock code (if listed)."]⟩,
   ⟨"signature cuddle teddies", "Signature Cuddle Teddies",
    ["A Signature collection focused on teddy characters in a ‘cuddle’ style.",
     "Share a product name/size and I can help identify the stock code (if listed)."]⟩,
   ⟨"signature cuddle wild", "Signature Cuddle Wild",
    ["A Signature collection featuring wild-animal characters in a ‘cuddle’ style.",
     "Share a product name/size and I can help identify the stock code (if listed)."]⟩,
   ⟨"signature forever puppies", "Signature Forever Puppies",
    ["A Signature collection focused on puppy characters in the ‘Forever Puppies’ line.",
     "Share a product name/size and I can help identify the stock code (if listed)."]⟩,
   ⟨"souvenir", "Souvenir",
    ["A collection designed for gift/souvenir-style plush items.",
     "If you provide the product name or a code, I can help confirm stock code details (if listed)."]⟩,
   ⟨"accessories", "Accessories",
    ["A product category for Keel Toys accessories.",
     "If you provide the product name, I can try to find the stock code (if listed)."]⟩,
   ⟨"bag charms", "Bag Charms",
    ["A product category featuring bag charm items.",
     "If you provide the product name, I can try to find the stock code (if listed)."]⟩,
   ⟨"bakery", "Bakery",
    ["A product category featuring bakery-themed items.",
     "If you provide the product name, I can try to find the stock code (if listed)."]⟩,
   ⟨"bobballs", "Bobballs",
    ["A product category under Keel Toys’ product listings.",
     "If you provide the product name, I can try to find the stock code (if listed)."]⟩,
   ⟨"cafe cute", "Cafe Cute",
    ["A product category under Keel Toys’ product listings.",
     "If you provide the product name, I can try to find the stock code (if listed)."]⟩]

/-- Stable insertion, descending by key length (ties keep first-seen order):
the embedding of `sorted(keys, key=len, reverse=True)`. -/
def insEntry (x : CollectionEntry) : List CollectionEntry → List CollectionEntry
  | [] => [x]
  | y :: ys => if y.key.length < x.key.length then x :: y :: ys else y :: insEntry x ys

def sortEntries (l : List CollectionEntry) : List CollectionEntry :=
  l.foldl (fun acc x => insEntry x acc) []

/-- Embedding of `detect_collection`: longest keys first, first key contained
in the cleaned text wins (returning the whole table entry stands for the key
plus the dict lookup of the source). -/
def detect_collection (cleaned : String) : Option CollectionEntry :=
  (sortEntries COLLECTION_FACTS).find? (fun e => containsSubStr e.key cleaned)

def keelecoSubList : List String :=
  ["Keeleco Adoptable World", "Keeleco Arctic & Sealife", "Keeleco Baby",
   "Keeleco Botanical Garden", "Keeleco British Wildlife & Farm",
   "Keeleco Collectables", "Keeleco Dinosaurs", "Keeleco Enchanted World",
   "Keeleco Handpuppets", "Keeleco Jungle Cats", "Keeleco Monkeys & Apes",
   "Keeleco Pets", "Keeleco Pink", "Keeleco Snackies", "Keeleco Teddies",
   "Keeleco Wild"]

def otherCollectionsList : List String :=
  ["Love To Hug", "Motsu", "Pippins", "Pugsley & Friends", "Seasonal",
   "Signature Cuddle Puppies", "Signature Cuddle Teddies",
   "Signature Cuddle Wild", "Signature Forever Puppies", "Souvenir"]

/-- Embedding of `collections_overview`. -/
def collections_overview : String :=
  "Here are our main collections/ranges:\n\n" ++
  "Keeleco® sub-ranges:\n" ++
  String.intercalate "\n" (keelecoSubList.map (fun x => "• " ++ x)) ++
  "\n\nOther collections:\n" ++
  String.intercalate "\n" (otherCollectionsList.map (fun x => "• " ++ x)) ++
  "\n\nTell me which one you’re interested in and I’ll share some facts about it."

/-- Embedding of `collection_reply`. -/
def collection_reply (cleaned : String) : String :=
  match detect_collection cleaned with
  | none => collections_overview
  | some e =>
      if e.key == "keeleco" && is_eco_question cleaned then KEELECO_OVERVIEW
      else
        "Here’s an overview of **" ++ e.title ++ "**:\n"
          ++ String.intercalate "\n" (e.facts.map (fun f => "• " ++ f))

/-! FAQ table and matcher. -/

def FAQ : List (String × String) :=
  [("tell me about keel toys",
    "Keel Toys is a family-run UK soft toy company founded in 1947. Since 1988, we’ve focused on developing our own-brand soft toys."),
   ("what are your opening hours",
    "The Keel Toys office is open Monday to Friday, 9:00am–5:00pm (UK time)."),
   ("are keel toys toys safe",
    "All Keel Toys products are designed and tested to meet UK and EU safety standards.")]

/-- Embedding of `best_faq_answer` (threshold 0.55). -/
def best_faq_answer (user_text : String) : Option String :=
  let q := clean_text user_text
  let best := FAQ.foldl
    (fun acc kv =>
      let s := similarity q kv.1
      if acc.1 < s then (s, some kv.2) else acc)
    ((0 : ℚ), (none : Option String))
  if best.1 ≥ 11 / 20 then best.2 else none

/-! Intent system of `keelie_runtime.py`. -/

structure Intent where
  priority : Nat
  keywords : List (String × Nat)
  responses : List String
deriving DecidableEq, Repr

def INTENTS : List (String × Intent) :=
  [("customer_service",
    ⟨6,
     [("customer service", 6), ("support", 4), ("agent", 4), ("human", 4),
      ("contact", 3)],
     ["Of course! 😊 You can contact Keel Toys customer service here:\n"
        ++ CUSTOMER_SERVICE_URL]⟩),
   ("delivery_time",
    ⟨5,
     [("when will it arrive", 6), ("when is it arriving", 6),
      ("when is it going to arrive", 7), ("going to arrive", 6),
      ("arrival", 4), ("eta", 5), ("estimated delivery", 5),
      ("delivery date", 5), ("arrive", 3), ("delivery", 4),
      ("where is my order", 6), ("track my order", 5), ("tracking", 4),
      ("order status", 5), ("dispatch", 4), ("shipped", 4)],
     ["For delivery updates, please check your order confirmation email. "
        ++ "It includes your estimated delivery date and tracking details if available."]⟩),
   ("greeting",
    ⟨2,
     [("hi", 2), ("hello", 2), ("hey", 2), ("hiya", 2), ("good morning", 2),
      ("good afternoon", 2), ("good evening", 2)],
     ["Hello! 👋 I\x27m " ++ BOT_NAME ++ ", the " ++ COMPANY_NAME
        ++ " customer service assistant. How can I help you?"]⟩),
   ("help",
    ⟨3,
     [("what can you do", 6), ("what can you help with", 6),
      ("how can you help", 6), ("what can i ask", 5)],
     [HELP_OVERVIEW]⟩),
   ("goodbye",
    ⟨1,
     [("bye", 2), ("goodbye", 2), ("thanks", 1), ("thank you", 1),
      ("thx", 1), ("cheers", 1)],
     ["Thanks for chatting with " ++ COMPANY_NAME ++ "! Have a lovely day 😊"]⟩),
   ("invoice_copy",
    ⟨6,
     [("invoice", 5), ("last invoice", 7), ("copy of my invoice", 7),
      ("invoice copy", 6), ("invoice history", 6), ("past invoice", 6),
      ("order invoice", 5), ("download invoice", 6)],
     ["To get a copy of an invoice, please use your trade account area (Invoice History), "
        ++ "or contact customer service if you need help accessing it:\n"
        ++ CUSTOMER_SERVICE_URL]⟩)]

/-- Embedding of `intent_score`. -/
def intent_score (it : Intent) (cleaned_text : String) : Nat :=
  it.keywords.foldl
    (fun acc kv => if containsSubStr kv.1 cleaned_text then acc + kv.2 else acc) 0

/-- Python string `<` on ASCII text: code-point lexicographic order. -/
def strLtL : List Char → List Char → Bool
  | [], [] => false
  | [], _ :: _ => true
  | _ :: _, [] => false
  | a :: as, b :: bs => if a == b then strLtL as bs else decide (a < b)

/-- Python tuple `<` on the `(priority, score, name)` triples `pick_intent`
sorts. -/
def tripleLt (x y : Nat × Nat × String) : Bool :=
  decide (x.1 < y.1)
    || (decide (x.1 = y.1)
      && (decide (x.2.1 < y.2.1)
        || (decide (x.2.1 = y.2.1) && strLtL x.2.2.data y.2.2.data)))

def insTriple (x : Nat × Nat × String) :
    List (Nat × Nat × String) → List (Nat × Nat × String)
  | [] => [x]
  | y :: ys => if tripleLt y x then x :: y :: ys else y :: insTriple x ys

/-- Embedding of `scored.sort(reverse=True)`: descending, stable. -/
def sortTriples (l : List (Nat × Nat × String)) : List (Nat × Nat × String) :=
  l.foldl (fun acc x => insTriple x acc) []

/-- Embedding of `pick_intent`: positive-scoring intents as
`(priority, score, name)` triples, sorted descending, first name. -/
def pick_intent (cleaned_text : String) : Option String :=
  let scored := INTENTS.filterMap (fun p =>
    let s := intent_score p.2 cleaned_text
    if 0 < s then some (p.2.priority, s, p.1) else none)
  match sortTriples scored with
  | [] => none
  | x :: _ => some x.2.2

/-- The dict lookup `INTENTS[intent_name]`. -/
def lookupIntent (name : String) : Option Intent :=
  (INTENTS.find? (fun p => p.1 == name)).map Prod.snd

/-! The core responder. -/

def deliveryReply : String :=
  "For delivery updates, please check your order confirmation email. "
    ++ "It includes your estimated delivery date and tracking details if available."

def greetingReply : String :=
  "Hello! 👋 I\x27m " ++ BOT_NAME ++ ", the " ++ COMPANY_NAME
    ++ " customer service assistant. How can I help you?"

/-- Steps 4–13 of `respond` (everything after the privacy guardrail, the
pending-choice continuation and the direct code lookup).  `k` stands for the
index `random.choice` draws in the intent branch. -/
def respondRest (rows : List Row) (st : SessionState) (cleaned user_text : String)
    (k : Nat) : Option (String × SessionState) :=
  if is_minimum_order_question cleaned then some (minimum_order_response, clearedState)
  else if is_production_question cleaned then
    some (PRODUCTION_INFO
      ++ "\n\nIf you need more detail, please contact customer service:\n"
      ++ CUSTOMER_SERVICE_URL, clearedState)
  else if is_eco_question cleaned then some (KEELECO_OVERVIEW, clearedState)
  else
    match detect_collection cleaned with
    | some _ => some (collection_reply cleaned, clearedState)
    | none =>
      if is_delivery_question cleaned then some (deliveryReply, clearedState)
      else if is_stock_code_request cleaned then some (lookup_stock_code rows st user_text)
      else if is_help_question cleaned then some (HELP_OVERVIEW, clearedState)
      else if is_greeting cleaned then some (greetingReply, clearedState)
      else
        match best_faq_answer user_text with
        | some f => some (f, clearedState)
        | none =>
          match pick_intent cleaned with
          | some name =>
              match lookupIntent name with
              | some it =>
                  (it.responses.get? (k % it.responses.length)).map
                    (fun r => (r, clearedState))
              | none => none
          | none => some (fallback_response, clearedState)

/-- Embedding of `respond`.  The result is `none` exactly where the Python
would raise (an intent name outside the table, or `random.choice` on an empty
response list); `_handle_stock_choice_reply` never returns an empty reply, so
Python's truthiness test on it is a plain option match. -/
def respond (rows : List Row) (st : SessionState) (user_text : String) (k : Nat) :
    Option (String × SessionState) :=
  let cleaned := clean_text user_text
  if contains_personal_info user_text then some (privacy_warning, clearedState)
  else
    let pr := _handle_stock_choice_reply st user_text
    match pr.1 with
    | some reply => some (reply, pr.2)
    | none =>
      match extract_stock_code user_text with
      | some code =>
          match lookup_product_by_code rows code with
          | some prod => some (prod, clearedState)
          | none => respondRest rows pr.2 cleaned user_text k
      | none => respondRest rows pr.2 cleaned user_text k

/-!
Frustration monitor, modelled from the spec.  No file under `src/` contains
the frustration/escalation logic the spec's §4.4 describes; these definitions
follow the spec's words and are marked as such.
-/

/-- Modelled from the spec: the goodbye topic detector (no standalone goodbye
detector exists under `src/`; the spec's §4.5 lists one with a static
farewell). -/
def is_goodbye_msg (text : String) : Bool :=
  let t := clean_text text
  ["bye", "goodbye", "cheers"].any (fun g => t == g)

/-- Modelled from the spec: the frustration keywords "(wrong, useless,
terrible, annoying, stop, …)". -/
def frustrationKeywords : List String :=
  ["wrong", "useless", "terrible", "annoying", "stop"]

/-- Modelled from the spec: the clarifying-topic prompt of a first strike. -/
def CLARIFY_PROMPT : String :=
  "I may have misunderstood. Could you tell me which topic you need help with "
    ++ "(orders, stock codes, delivery, sustainability, or something else)?"

/-- Modelled from the spec: the escalation-to-human message. -/
def ESCALATION_MESSAGE : String :=
  "I\x27m sorry this is not going smoothly. Let me connect you with a human colleague:\n"
    ++ CUSTOMER_SERVICE_URL

/-- Modelled from the spec: the session fields the frustration monitor owns
(`frustrationStrikes`, `lastNormalizedMessage`, `lastMessageTimestamp`);
timestamps are seconds. -/
structure FrustrationState where
  frustrationStrikes : Nat
  lastNormalizedMessage : String
  lastMessageTimestamp : Nat
deriving DecidableEq, Repr

/-- Modelled from the spec: `detectFrustration` — false for empty input, a
greeting/goodbye, or input of at most 3 characters; true on a frustration
keyword, `??` or `!!` in the raw text, a mostly-uppercase shout (at least 8
letters, at least 85% uppercase), or a near-duplicate (similarity at least
0.92) of the preceding normalized message sent within the last 40 seconds. -/
def detect_frustration (st : FrustrationState) (raw : String) (now : Nat) : Bool :=
  let t := clean_text raw
  let letters := (raw.data.filter isAlphaChar).length
  let uppers := (raw.data.filter isUpperChar).length
  if raw == "" then false
  else if is_greeting raw || is_goodbye_msg raw then false
  else if raw.length ≤ 3 then false
  else
    frustrationKeywords.any (fun w => containsSubStr w t)
      || containsSubStr "??" raw || containsSubStr "!!" raw
      || (decide (8 ≤ letters) && decide (85 * letters ≤ 100 * uppers))
      || (decide (st.lastNormalizedMessage ≠ "")
        && decide (23 / 25 ≤ similarity t st.lastNormalizedMessage)
        && decide (now - st.lastMessageTimestamp ≤ 40))

/-- Modelled from the spec: one turn of the frustration monitor.  On a
trigger the strike counter is incremented and the reply is the clarifying
prompt, or the escalation message once `frustrationStrikes ≥ 2`; either way
the last-message fields are updated. -/
def frustration_step (st : FrustrationState) (raw : String) (now : Nat) :
    Option String × FrustrationState :=
  if detect_frustration st raw now then
    let strikes := st.frustrationStrikes + 1
    (some (if 2 ≤ strikes then ESCALATION_MESSAGE else CLARIFY_PROMPT),
      ⟨strikes, clean_text raw, now⟩)
  else (none, ⟨st.frustrationStrikes, clean_text raw, now⟩)

end Keelie

namespace AppPy

/-!
The fallback intent classifier of `src/app.py` (`detect_intent` over its own
`INTENTS` table).  The `Intent` dataclass is identical to the runtime's, so
the structure is shared; response texts play no part in `detect_intent`.
-/

def APP_INTENTS : List (String × Keelie.Intent) :=
  [("customer_service",
    ⟨6,
     [("customer service", 6), ("support", 4), ("agent", 4), ("human", 4),
      ("contact", 3)],
     ["Of course! 😊 You can contact Keel Toys customer service here:\n"
        ++ Keelie.CUSTOMER_SERVICE_URL]⟩),
   ("delivery_time",
    ⟨5,
     [("when will it arrive", 6), ("when is it arriving", 6),
      ("when is it going to arrive", 7), ("going to arrive", 6),
      ("arrival", 4), ("eta", 5), ("estimated delivery", 5),
      ("delivery date", 5), ("arrive", 3), ("delivery", 4),
      ("where is my order", 6), ("track my order", 5), ("tracking", 4),
      ("order status", 5), ("dispatch", 4), ("shipped", 4)],
     ["For delivery updates, please check your order confirmation email. "
        ++ "It includes your estimated delivery date and tracking details if available."]⟩),
   ("greeting",
    ⟨1,
     [("hi", 1), ("hello", 1), ("hey", 1), ("hiya", 1), ("good morning", 1),
      ("good afternoon", 1), ("good evening", 1)],
     ["Hello! 👋 I\x27m " ++ Keelie.BOT_NAME ++ ", the " ++ Keelie.COMPANY_NAME
        ++ " customer service assistant. How can I help you?"]⟩),
   ("goodbye",
    ⟨1,
     [("bye", 1), ("goodbye", 1), ("thanks", 1), ("thank you", 1),
      ("thx", 1), ("cheers", 1)],
     ["Thanks for chatting with " ++ Keelie.COMPANY_NAME ++ "! Have a lovely day 😊"]⟩)]

/-- The priority-multiplied score of one intent at a text:
`sum(weight for phrase in keywords if phrase in text) * priority`. -/
def productScore (it : Keelie.Intent) (text : String) : Nat :=
  Keelie.intent_score it text * it.priority

/-- Embedding of `detect_intent` of `src/app.py`: keep the strictly largest
priority-multiplied score (`if score > best_score`, so the first-registered
intent wins ties); `None` when no score is positive. -/
def detect_intent (text : String) : Option String :=
  (APP_INTENTS.foldl
    (fun acc p =>
      let score := productScore p.2 text
      if acc.1 < score then (score, some p.1) else acc)
    ((0 : Nat), (none : Option String))).2

end AppPy

namespace Keelie

/-! Helper lemmas about the intent scorer, used by the totality and
determinism theorems. -/

theorem mem_insTriple {x y : Nat × Nat × String} :
    ∀ {l : List (Nat × Nat × String)}, x ∈ insTriple y l → x = y ∨ x ∈ l := by
  intro l
  induction l with
  | nil =>
      intro h
      simp only [insTriple, List.mem_singleton] at h
      exact Or.inl h
  | cons z zs ih =>
      intro h
      simp only [insTriple] at h
      split at h
      · rcases List.mem_cons.mp h with h | h
        · exact Or.inl h
        · exact Or.inr h
      · rcases List.mem_cons.mp h with h | h
        · exact Or.inr (by simp [h])
        · rcases ih h with h | h
          · exact Or.inl h
          · exact Or.inr (List.mem_cons_of_mem _ h)

theorem mem_sortTriples_aux {x : Nat × Nat × String} :
    ∀ (l acc : List (Nat × Nat × String)),
      x ∈ l.foldl (fun acc y => insTriple y acc) acc → x ∈ acc ∨ x ∈ l := by
  intro l
  induction l with
  | nil => intro acc h; exact Or.inl h
  | cons z zs ih =>
      intro acc h
      rcases ih _ h with h | h
      · rcases mem_insTriple h with h | h
        · exact Or.inr (by simp [h])
        · exact Or.inl h
      · exact Or.inr (List.mem_cons_of_mem _ h)

theorem mem_sortTriples {x : Nat × Nat × String} {l : List (Nat × Nat × String)}
    (h : x ∈ sortTriples l) : x ∈ l := by
  rcases mem_sortTriples_aux l [] h with h | h
  · simp at h
  · exact h

/-- A name `pick_intent` returns is the name of a configured intent. -/
theorem pick_intent_mem {t n : String} (h : pick_intent t = some n) :
    ∃ p ∈ INTENTS, p.1 = n := by
  unfold pick_intent at h
  simp only [] at h
  rcases hs : sortTriples (INTENTS.filterMap (fun p =>
      if 0 < intent_score p.2 t then some (p.2.priority, intent_score p.2 t, p.1) else none))
    with _ | ⟨x, xs⟩
  · rw [hs] at h; cases h
  · rw [hs] at h
    have hx : x ∈ sortTriples (INTENTS.filterMap (fun p =>
        if 0 < intent_score p.2 t then
          some (p.2.priority, intent_score p.2 t, p.1) else none)) := by
      rw [hs]; exact List.mem_cons_self _ _
    rcases List.mem_filterMap.mp (mem_sortTriples hx) with ⟨p, hp, he⟩
    refine ⟨p, hp, ?_⟩
    split at he
    · cases he
      cases h
      rfl
    · cases he

/-- Every intent `pick_intent` can return exists in the table and has a
single-element response list. -/
theorem pick_intent_responses {t n : String} (h : pick_intent t = some n) :
    ∃ it : Intent, lookupIntent n = some it ∧ it.responses.length = 1 := by
  rcases pick_intent_mem h with ⟨p, hp, hn⟩
  subst hn
  simp only [INTENTS, List.mem_cons, List.not_mem_nil, or_false] at hp
  rcases hp with h | h | h | h | h | h <;> subst h <;> exact ⟨_, rfl, rfl⟩

theorem respondRest_isSome (rows : List Row) (st : SessionState)
    (cleaned user_text : String) (k : Nat) :
    (respondRest rows st cleaned user_text k).isSome = true := by
  unfold respondRest
  repeat' split
  all_goals try rfl
  · rename_i name hpick x it hlook
    rcases pick_intent_responses hpick with ⟨it', hl, hlen⟩
    rw [hlook] at hl
    cases hl
    rcases List.length_eq_one.mp hlen with ⟨r, hr⟩
    rw [hr]
    simp [Nat.mod_one]
  · rename_i name hpick x hlook
    rcases pick_intent_responses hpick with ⟨it', hl, _⟩
    rw [hlook] at hl
    cases hl

theorem respondRest_deterministic (rows : List Row) (st : SessionState)
    (cleaned user_text : String) (k₁ k₂ : Nat) :
    respondRest rows st cleaned user_text k₁ = respondRest rows st cleaned user_text k₂ := by
  unfold respondRest
  repeat' split
  all_goals try rfl
  rename_i name hpick x it hlook
  rcases pick_intent_responses hpick with ⟨it', hl, hlen⟩
  rw [hlook] at hl
  cases hl
  rcases List.length_eq_one.mp hlen with ⟨r, hr⟩
  rw [hr]
  simp [Nat.mod_one]

end Keelie

open Keelie in
/-- C1.  No exception propagates to the caller from the classification
pipeline: `respond` (and with it the pending stock-choice handler and every
topic detector it calls) produces a reply for every message, every session
state, every catalog — including the empty string and an empty (missing)
catalog — on every reachable path.  In the embedding the `none` result stands
exactly for the places the Python could raise, and it is never produced. -/
theorem respond_total (rows : List Row) (st : SessionState) (user_text : String)
    (k : Nat) : (respond rows st user_text k).isSome = true := by
  unfold respond
  dsimp only
  repeat' split
  case isTrue => rfl
  case h_1 => rfl
  case h_1 => rfl
  case h_2 => exact respondRest_isSome ..
  case h_2 => exact respondRest_isSome ..

open Keelie in
/-- C10.  For a fixed message, session state and catalog, `respond` does not
depend on the index the `random.choice` call draws: every configured intent
has a single-element response list, so the reply is the same for any two
draws. -/
theorem respond_deterministic (rows : List Row) (st : SessionState)
    (user_text : String) (k₁ k₂ : Nat) :
    respond rows st user_text k₁ = respond rows st user_text k₂ := by
  unfold respond
  dsimp only
  repeat' split
  case isTrue => rfl
  case h_1 => rfl
  case h_1 => rfl
  case h_2 => exact respondRest_deterministic ..
  case h_2 => exact respondRest_deterministic ..

open Keelie in
/-- C2.  The privacy guardrail is evaluated first on every turn: whenever
`contains_personal_info` holds of the raw message, `respond` returns the fixed
privacy notice and clears all pending stock-lookup state, for every session
state (in particular an in-progress disambiguation) and every catalog. -/
theorem respond_privacy_dominates (rows : List Row) (st : SessionState)
    (user_text : String) (k : Nat)
    (h : contains_personal_info user_text = true) :
    respond rows st user_text k = some (privacy_warning, clearedState) := by
  unfold respond
  rw [if_pos h]

open Keelie in
/-- Witness for C2 at a concrete input: an email address in the message, with
a disambiguation in progress, yields the privacy notice and a cleared
state. -/
theorem respond_privacy_dominates_witness :
    contains_personal_info "my email is a@b.com" = true
      ∧ respond [] ⟨true, [⟨"Polar Bear Plush 20cm", "PB1001"⟩], "bear"⟩
          "my email is a@b.com" 0 = some (privacy_warning, clearedState) :=
  ⟨by decide,
   respond_privacy_dominates [] ⟨true, [⟨"Polar Bear Plush 20cm", "PB1001"⟩], "bear"⟩
     "my email is a@b.com" 0 (by decide)⟩

namespace Keelie

/-- With a pending lookup and at least two stored candidates, the reply "2"
resolves in `_handle_stock_choice_reply` to the second candidate and clears
the pending state. -/
theorem handler_selects_second (a b : Row) (t : List Row) (q : String) :
    _handle_stock_choice_reply ⟨true, a :: b :: t, q⟩ "2"
      = (some (stockReplyFor b), clearedState) := by
  unfold _handle_stock_choice_reply
  simp only [List.isEmpty_cons, Bool.not_true, Bool.false_or,
    show is_minimum_order_question (clean_text "2") = false from rfl,
    show is_delivery_question (clean_text "2") = false from rfl,
    show is_eco_question (clean_text "2") = false from rfl,
    show is_production_question (clean_text "2") = false from rfl,
    show is_help_question (clean_text "2") = false from rfl,
    show findChoiceDigit (clean_text "2") = some 2 from rfl,
    Bool.or_self, Bool.false_eq_true, if_false]
  rw [dif_pos (by simp)]
  simp

end Keelie

open Keelie in
/-- C3.  From the AwaitingChoice state (pending lookup set, 1–3 stored
candidates, here at least 2 so that a second exists), replying "2" selects the
second listed candidate — the reply names its product and stock code — and
resets the session to Idle with all pending state cleared, for every catalog
and random draw. -/
theorem respond_awaiting_choice_two (rows cs : List Row) (q : String) (k : Nat)
    (h2 : 2 ≤ cs.length) (h3 : cs.length ≤ 3) :
    respond rows ⟨true, cs, q⟩ "2" k
      = some (stockReplyFor (cs.getD 1 ⟨"", ""⟩), clearedState) := by
  rcases cs with _ | ⟨a, _ | ⟨b, t⟩⟩
  · simp at h2
  · simp at h2
  · have : respond rows ⟨true, a :: b :: t, q⟩ "2" k
        = some (stockReplyFor b, clearedState) := by
      unfold respond
      dsimp only
      rw [if_neg (by rw [show contains_personal_info "2" = false from rfl]; simp),
        handler_selects_second]
    simpa using this

open Keelie in
/-- Witness for C3: two concrete candidates, reply "2" returns the second
product with its stock code and the cleared state. -/
theorem respond_awaiting_choice_two_witness :
    2 ≤ ([⟨"Polar Bear Plush 20cm", "PB1001"⟩,
          ⟨"Brown Bear Plush 30cm", "BB2002"⟩] : List Row).length
  ∧ respond [] ⟨true, [⟨"Polar Bear Plush 20cm", "PB1001"⟩,
        ⟨"Brown Bear Plush 30cm", "BB2002"⟩], "bear"⟩ "2" 0
      = some (stockReplyFor (([⟨"Polar Bear Plush 20cm", "PB1001"⟩,
          ⟨"Brown Bear Plush 30cm", "BB2002"⟩] : List Row).getD 1 ⟨"", ""⟩),
        clearedState) :=
  ⟨by decide,
   respond_awaiting_choice_two [] [⟨"Polar Bear Plush 20cm", "PB1001"⟩,
     ⟨"Brown Bear Plush 30cm", "BB2002"⟩] "bear" 0 (by decide) (by decide)⟩

open Keelie in
/-- C5.  Two consecutive near-identical messages, "THIS IS WRONG!!" then
"this is wrong" thirty seconds later, drive the frustration monitor (modelled
from the spec) to two strikes: the first reply is the clarifying prompt, the
second the escalation-to-human message, and the two differ. -/
theorem frustration_two_strikes_escalates :
    (frustration_step ⟨0, "", 0⟩ "THIS IS WRONG!!" 0).1 = some CLARIFY_PROMPT
  ∧ (frustration_step (frustration_step ⟨0, "", 0⟩ "THIS IS WRONG!!" 0).2
      "this is wrong" 30).1 = some ESCALATION_MESSAGE
  ∧ (frustration_step (frustration_step ⟨0, "", 0⟩ "THIS IS WRONG!!" 0).2
      "this is wrong" 30).2.frustrationStrikes = 2
  ∧ CLARIFY_PROMPT ≠ ESCALATION_MESSAGE :=
  ⟨rfl, rfl, rfl, by decide⟩

open Keelie in
/-- C6 (evidence of the code bug).  A message naming the sub-collection
"keeleco dinosaurs" is answered with the generic `KEELECO_OVERVIEW`, because
`respond` checks `is_eco_question` (which any text containing "keeleco"
satisfies) before the collection detector; yet the collection detector does
match the message to the Keeleco Dinosaurs entry, whose fact-block reply
differs from the overview.  The spec says the sub-collection fact block
wins. -/
theorem eco_check_shadows_subcollection :
    respond [] clearedState "keeleco dinosaurs" 0
        = some (KEELECO_OVERVIEW, clearedState)
  ∧ (detect_collection (clean_text "keeleco dinosaurs")).map
        CollectionEntry.title = some "Keeleco Dinosaurs"
  ∧ collection_reply (clean_text "keeleco dinosaurs") ≠ KEELECO_OVERVIEW :=
  ⟨rfl, rfl, by decide⟩

open Keelie in
/-- C8.  With an empty (unloadable) catalog, the stock-code request
"sku for teddy" yields the apologetic reply — which contains the support
URL — and the session stays Idle: no pending lookup, no candidates. -/
theorem respond_empty_catalog_sku :
    respond [] clearedState "sku for teddy" 0
        = some ("I can’t access stock codes right now (stock_codes.xlsx may be missing or unreadable). "
          ++ "Please contact customer service here:\n" ++ CUSTOMER_SERVICE_URL,
          clearedState)
  ∧ containsSubStr CUSTOMER_SERVICE_URL
      ("I can’t access stock codes right now (stock_codes.xlsx may be missing or unreadable). "
        ++ "Please contact customer service here:\n" ++ CUSTOMER_SERVICE_URL) = true :=
  ⟨rfl, by decide⟩

open Keelie in
/-- C7 (counterexample).  On "delivery tracking contact", `pick_intent`
selects `customer_service`, whose priority-multiplied keyword score (3·6 = 18)
is strictly below `delivery_time`'s (8·5 = 40): the runtime's fallback
classifier does not select the intent with the strictly highest
priority-multiplied score (it sorts by priority first, without
multiplying). -/
theorem pick_intent_not_priority_weighted :
    pick_intent "delivery tracking contact" = some "customer_service"
  ∧ (lookupIntent "customer_service").map
      (fun it => intent_score it "delivery tracking contact" * it.priority) = some 18
  ∧ (lookupIntent "delivery_time").map
      (fun it => intent_score it "delivery tracking contact" * it.priority) = some 40
  ∧ 18 < 40 := by
  refine ⟨by decide, by decide, by decide, by decide⟩

namespace Keelie

theorem similarity_tide_diet : similarity "tide" "diet" = 1 / 4 := by
  unfold similarity ratioL
  rw [show matchTotal "tide".data "diet".data = 1 from by decide,
    show ("tide".data.length) = 4 from rfl, show ("diet".data.length) = 4 from rfl]
  norm_num

theorem similarity_diet_tide : similarity "diet" "tide" = 1 / 2 := by
  unfold similarity ratioL
  rw [show matchTotal "diet".data "tide".data = 2 from by decide,
    show ("tide".data.length) = 4 from rfl, show ("diet".data.length) = 4 from rfl]
  norm_num

end Keelie

open Keelie in
/-- C9 (counterexample).  The difflib-style whole-string scorer is not
symmetric: `similarity "tide" "diet" = 1/4` but
`similarity "diet" "tide" = 1/2`. -/
theorem similarity_not_symmetric :
    similarity "tide" "diet" ≠ similarity "diet" "tide" := by
  rw [similarity_tide_diet, similarity_diet_tide]
  norm_num

open AppPy in
/-- C7 (amended).  The `detect_intent` classifier of `src/app.py` does select
by the priority-multiplied keyword-weight sum: when no configured intent has a
positive product it selects nothing, and an intent whose product is positive
and strictly above every other configured intent's is selected.  (The
runtime's `pick_intent` does not follow this rule — see the
counterexample.) -/
theorem detect_intent_selects_strict_max (text : String) :
    ((∀ p ∈ APP_INTENTS, productScore p.2 text = 0) → detect_intent text = none)
  ∧ (∀ p ∈ APP_INTENTS, 0 < productScore p.2 text →
      (∀ q ∈ APP_INTENTS, q.1 ≠ p.1 → productScore q.2 text < productScore p.2 text) →
      detect_intent text = some p.1) := by
  constructor
  · intro h
    simp only [APP_INTENTS, List.forall_mem_cons, List.forall_mem_nil, and_true] at h
    obtain ⟨h1, h2, h3, h4, -⟩ := h
    unfold detect_intent APP_INTENTS
    dsimp only [List.foldl]
    rw [h1, h2, h3, h4]
    simp
  · intro p hp h0 hmax
    simp only [APP_INTENTS, List.mem_cons, List.not_mem_nil, or_false] at hp
    simp only [APP_INTENTS, List.forall_mem_cons, List.forall_mem_nil, and_true] at hmax
    obtain ⟨m1, m2, m3, m4, -⟩ := hmax
    unfold detect_intent APP_INTENTS
    dsimp only [List.foldl]
    rcases hp with hp | hp | hp | hp <;> subst hp <;> dsimp only at *
    · specialize m2 (by decide); specialize m3 (by decide); specialize m4 (by decide)
      split_ifs <;> first | rfl | (exfalso; omega)
    · specialize m1 (by decide); specialize m3 (by decide); specialize m4 (by decide)
      split_ifs <;> first | rfl | (exfalso; omega)
    · specialize m1 (by decide); specialize m2 (by decide); specialize m4 (by decide)
      split_ifs <;> first | rfl | (exfalso; omega)
    · specialize m1 (by decide); specialize m2 (by decide); specialize m3 (by decide)
      split_ifs <;> first | rfl | (exfalso; omega)

open AppPy in
/-- Witness for the amended C7: on "hello" only the greeting intent scores,
so `detect_intent` selects it. -/
theorem detect_intent_selects_strict_max_witness :
    detect_intent "hello" = some "greeting" :=
  (detect_intent_selects_strict_max "hello").2 (APP_INTENTS.get ⟨2, by decide⟩)
    (by decide) (by decide) (by decide)

namespace Keelie

theorem mem_insScored {x z : ℚ × Row} :
    ∀ {l : List (ℚ × Row)}, z ∈ insScored x l → z = x ∨ z ∈ l := by
  intro l
  induction l with
  | nil =>
      intro h
      simp only [insScored, List.mem_singleton] at h
      exact Or.inl h
  | cons y ys ih =>
      intro h
      simp only [insScored] at h
      split at h
      · rcases List.mem_cons.mp h with h | h
        · exact Or.inl h
        · exact Or.inr h
      · rcases List.mem_cons.mp h with h | h
        · exact Or.inr (by simp [h])
        · rcases ih h with h | h
          · exact Or.inl h
          · exact Or.inr (List.mem_cons_of_mem _ h)

theorem length_insScored (x : ℚ × Row) : ∀ l, (insScored x l).length = l.length + 1 := by
  intro l
  induction l with
  | nil => rfl
  | cons y ys ih => unfold insScored; split <;> simp [ih]

theorem length_sortScored_aux :
    ∀ (l acc : List (ℚ × Row)),
      (l.foldl (fun acc x => insScored x acc) acc).length = acc.length + l.length := by
  intro l
  induction l with
  | nil => intro acc; simp
  | cons y ys ih =>
      intro acc
      simp only [List.foldl]
      rw [ih, length_insScored]
      simp [List.length_cons]
      omega

theorem length_sortScored (l : List (ℚ × Row)) : (sortScored l).length = l.length := by
  simpa using length_sortScored_aux l []

theorem pairwise_insScored {x : ℚ × Row} :
    ∀ {l : List (ℚ × Row)}, l.Pairwise (fun a b => b.1 ≤ a.1) →
      (insScored x l).Pairwise (fun a b => b.1 ≤ a.1) := by
  intro l
  induction l with
  | nil => intro _; simp [insScored]
  | cons y ys ih =>
      intro hl
      rcases List.pairwise_cons.mp hl with ⟨hy, hys⟩
      unfold insScored
      split
      · rename_i hlt
        refine List.pairwise_cons.mpr ⟨?_, hl⟩
        intro z hz
        rcases List.mem_cons.mp hz with hz | hz
        · subst hz; exact le_of_lt hlt
        · exact le_trans (hy z hz) (le_of_lt hlt)
      · rename_i hge
        refine List.pairwise_cons.mpr ⟨?_, ih hys⟩
        intro z hz
        rcases mem_insScored hz with hz | hz
        · subst hz; exact not_lt.mp hge
        · exact hy z hz

theorem sorted_sortScored_aux :
    ∀ (l acc : List (ℚ × Row)), acc.Pairwise (fun a b => b.1 ≤ a.1) →
      (l.foldl (fun acc x => insScored x acc) acc).Pairwise (fun a b => b.1 ≤ a.1) := by
  intro l
  induction l with
  | nil => intro acc h; exact h
  | cons y ys ih => intro acc h; exact ih _ (pairwise_insScored h)

theorem sorted_sortScored (l : List (ℚ × Row)) :
    (sortScored l).Pairwise (fun a b => b.1 ≤ a.1) :=
  sorted_sortScored_aux l [] (by simp)

theorem filter_insScored (q : ℚ) {x : ℚ × Row} :
    ∀ {l : List (ℚ × Row)}, l.Pairwise (fun a b => b.1 ≤ a.1) →
      (insScored x l).filter (fun z => decide (z.1 = q))
        = l.filter (fun z => decide (z.1 = q)) ++ (if x.1 = q then [x] else []) := by
  intro l
  induction l with
  | nil =>
      intro _
      simp only [insScored, List.filter_cons, List.filter_nil]
      split <;> simp_all
  | cons y ys ih =>
      intro hl
      rcases List.pairwise_cons.mp hl with ⟨hy, hys⟩
      unfold insScored
      split
      · rename_i hlt
        by_cases hxq : x.1 = q
        · have hnil : (y :: ys).filter (fun z => decide (z.1 = q)) = [] := by
            apply List.filter_eq_nil_iff.mpr
            intro z hz
            simp only [decide_eq_true_eq]
            rcases List.mem_cons.mp hz with hz | hz
            · subst hz; exact ne_of_lt (hxq ▸ hlt)
            · exact ne_of_lt (lt_of_le_of_lt (hy z hz) (hxq ▸ hlt))
          simp [List.filter_cons, hxq, hnil]
        · simp [List.filter_cons, hxq]
      · rename_i hge
        simp only [List.filter_cons]
        by_cases hyq : y.1 = q
        · simp [hyq, ih hys]
        · simp [hyq, ih hys]

theorem filter_sortScored_aux (q : ℚ) :
    ∀ (l acc : List (ℚ × Row)), acc.Pairwise (fun a b => b.1 ≤ a.1) →
      (l.foldl (fun acc x => insScored x acc) acc).filter (fun z => decide (z.1 = q))
        = acc.filter (fun z => decide (z.1 = q)) ++ l.filter (fun z => decide (z.1 = q)) := by
  intro l
  induction l with
  | nil => intro acc _; simp
  | cons y ys ih =>
      intro acc hacc
      simp only [List.foldl]
      rw [ih _ (pairwise_insScored hacc), filter_insScored q hacc]
      simp only [List.filter_cons]
      by_cases hyq : y.1 = q <;> simp [hyq, List.append_assoc]

theorem filter_sortScored (q : ℚ) (l : List (ℚ × Row)) :
    (sortScored l).filter (fun z => decide (z.1 = q))
      = l.filter (fun z => decide (z.1 = q)) := by
  simpa using filter_sortScored_aux q l [] (by simp)

theorem scoredRows_length (rows : List Row) (text : String) :
    (scoredRows rows text).length
      = (rows.filter (fun row => decide (prepName row ≠ ""))).length := by
  unfold scoredRows
  dsimp only
  induction rows with
  | nil => rfl
  | cons r rs ih =>
      simp only [List.filterMap_cons, List.filter_cons]
      by_cases h : prepName r = "" <;> simp [h, ih]

end Keelie

open Keelie in
/-- C4.  A stock-code request whose best catalog-name similarity `s` lands in
[0.55, 0.75) always transitions to AwaitingChoice: `lookup_stock_code` sets
the pending flag, stores exactly the top candidates as the reply offers them
(numbered 1–3 by `_offer_stock_choices`), their number is
`min 3 candidateCount` (candidates being the catalog rows with a nonempty
name), they are sorted descending by similarity, and the underlying stable
sort resolves ties by first-seen catalog order (equal-score candidates keep
their original relative order: filtering at any score commutes with the
sort). -/
theorem lookup_medium_goes_awaiting (rows : List Row) (st : SessionState) (text : String)
    (s : ℚ) (r : Row) (rest : List (ℚ × Row))
    (hrows : rows ≠ [])
    (htop : _top_stock_candidates rows text = (s, r) :: rest)
    (hlo : STOCK_MED ≤ s) (hhi : s < STOCK_HIGH) :
    lookup_stock_code rows st text
      = (_offer_stock_choices (((s, r) :: rest).map Prod.snd),
          ⟨true, ((s, r) :: rest).map Prod.snd, text⟩)
  ∧ ((s, r) :: rest).length
      = min 3 ((rows.filter (fun row => decide (prepName row ≠ ""))).length)
  ∧ ((s, r) :: rest).Pairwise (fun a b => b.1 ≤ a.1)
  ∧ ∀ q : ℚ, (sortScored (scoredRows rows text)).filter (fun z => decide (z.1 = q))
      = (scoredRows rows text).filter (fun z => decide (z.1 = q)) := by
  refine ⟨?_, ?_, ?_, fun q => filter_sortScored q _⟩
  · unfold lookup_stock_code
    rw [if_neg (by simpa using hrows)]
    rw [htop]
    dsimp only
    rw [if_neg (not_le.mpr hhi), if_pos hlo]
  · rw [← htop]
    unfold _top_stock_candidates
    rw [List.length_take, length_sortScored, scoredRows_length]
  · rw [← htop]
    unfold _top_stock_candidates
    exact (sorted_sortScored _).sublist (List.take_sublist _ _)

namespace Keelie

set_option maxRecDepth 4000 in
theorem top_abcd : _top_stock_candidates [⟨"abcdef", "X1"⟩] "abcdxy"
    = [((2 : ℚ)/3, ⟨"abcdef", "X1"⟩)] := by
  have hsim : similarity "abcdxy" "abcdef" = 2/3 := by
    unfold similarity ratioL
    rw [show matchTotal "abcdxy".data "abcdef".data = 4 from by decide,
      show ("abcdxy".data.length) = 6 from rfl, show ("abcdef".data.length) = 6 from rfl]
    norm_num
  unfold _top_stock_candidates
  rw [show scoredRows [⟨"abcdef", "X1"⟩] "abcdxy"
      = [(similarity "abcdxy" "abcdef", (⟨"abcdef", "X1"⟩ : Row))] from rfl, hsim]
  rfl

end Keelie

open Keelie in
/-- Witness for C4: a one-row catalog whose only candidate scores 2/3 ∈
[0.55, 0.75) flips the session into AwaitingChoice. -/
theorem lookup_medium_goes_awaiting_witness :
    (lookup_stock_code [⟨"abcdef", "X1"⟩] clearedState "abcdxy").2.pendingStockLookup = true := by
  have h := lookup_medium_goes_awaiting [⟨"abcdef", "X1"⟩] clearedState "abcdxy" (2/3) ⟨"abcdef", "X1"⟩ []
    (by simp) top_abcd (by norm_num [STOCK_MED]) (by norm_num [STOCK_HIGH])
  rw [h.1]

namespace Keelie

theorem flmScan_skip (i : Nat) (row : Nat → Nat) :
    ∀ (f j0 : Nat) (best : Nat × Nat × Nat),
      (∀ d, d < f → row (j0 + d) ≤ best.2.2) →
      flmScan i row j0 f best = best := by
  intro f
  induction f with
  | zero => intro j0 best _; rfl
  | succ f ih =>
      intro j0 best h
      unfold flmScan
      rw [if_neg (by simpa using Nat.not_lt.mpr (by simpa using h 0 (Nat.succ_pos f)))]
      exact ih (j0 + 1) best (fun d hd => by
        have := h (d + 1) (by omega)
        simpa [Nat.add_assoc, Nat.add_comm 1 d] using this)

theorem flmScan_succ (i : Nat) (row : Nat → Nat) (j f : Nat) (b : Nat × Nat × Nat) :
    flmScan i row j (f + 1) b
      = flmScan i row (j + 1) f
          (if b.2.2 < row j then (i + 1 - row j, j + 1 - row j, row j) else b) := rfl

theorem flmScan_split (i : Nat) (row : Nat → Nat) :
    ∀ (f1 f2 j0 : Nat) (best : Nat × Nat × Nat),
      flmScan i row j0 (f1 + f2) best
        = flmScan i row (j0 + f1) f2 (flmScan i row j0 f1 best) := by
  intro f1
  induction f1 with
  | zero => intro f2 j0 best; simp [flmScan]
  | succ f1 ih =>
      intro f2 j0 best
      rw [show f1 + 1 + f2 = (f1 + f2) + 1 from by omega, flmScan_succ, ih,
        flmScan_succ, show j0 + 1 + f1 = j0 + (f1 + 1) from by omega]

theorem diagRun_succ (pop : Char → Bool) (v : List Char) (t : Nat) :
    diagRun pop v (t + 1)
      = if pop (v.getD t ' ') then 0 else diagRun pop v t + 1 := rfl

theorem diagRun_le (pop : Char → Bool) (v : List Char) :
    ∀ t, diagRun pop v t ≤ t := by
  intro t
  induction t with
  | zero => exact Nat.le_refl 0
  | succ t ih =>
      unfold diagRun
      split
      · omega
      · omega

theorem flmScan_hit (i m : Nat) (row : Nat → Nat) (d K R : Nat)
    (hA : ∀ j, j < i → row j ≤ K) (hB : row i = R) (hK : K < R)
    (hC : ∀ j, row j ≤ R) (hD : i < m) :
    flmScan i row 0 m (d, d, K) = (i + 1 - R, i + 1 - R, R) := by
  have hm : m = i + (1 + (m - i - 1)) := by omega
  rw [hm, flmScan_split, flmScan_split]
  rw [flmScan_skip i row i 0 (d, d, K) (fun e he => by simpa using hA e he)]
  have hstep : flmScan i row (0 + i) 1 (d, d, K) = (i + 1 - R, i + 1 - R, R) := by
    rw [flmScan_succ, Nat.zero_add,
      if_pos (show ((d, d, K) : Nat × Nat × Nat).2.2 < row i from by
        rw [hB]; exact hK), hB]
    rfl
  rw [hstep]
  exact flmScan_skip i row _ _ _ (fun e he => by
    have := hC (0 + i + 1 + e)
    simpa using this)

theorem flmLoop_self_diag (pop : Char → Bool) (v : List Char) :
    ∀ (k i : Nat) (row : Nat → Nat) (d K : Nat),
      v.length - i = k → i ≤ v.length →
      (∀ j, row j ≤ diagRun pop v (j + 1)) →
      (∀ j, row j ≤ diagRun pop v i) →
      (∀ i', i = i' + 1 → row i' = diagRun pop v i) →
      d + K ≤ i →
      (∀ t, t < i → diagRun pop v (t + 1) ≤ K) →
      ∃ d' K', flmLoop pop v i (v.drop i) row (d, d, K) = (d', d', K')
        ∧ d' + K' ≤ v.length := by
  intro k
  induction k with
  | zero =>
      intro i row d K hk hle _ _ _ hdK _
      have hi : i = v.length := by omega
      subst hi
      rw [List.drop_length]
      exact ⟨d, K, rfl, hdK⟩
  | succ k ih =>
      intro i row d K hk hle h1 h5 h2 hdK h4
      have hlt : i < v.length := by omega
      rw [List.drop_eq_getElem_cons hlt]
      show ∃ d' K', flmLoop pop v i (v[i] :: v.drop (i + 1)) row (d, d, K) = (d', d', K')
        ∧ d' + K' ≤ v.length
      unfold flmLoop
      dsimp only
      have hgetD : v.getD i ' ' = v[i] := List.getD_eq_getElem v ' ' hlt
      have hN1 : ∀ j, flmNext pop v[i] v row j ≤ diagRun pop v (j + 1) := by
        intro j
        unfold flmNext
        split
        · rename_i hg
          simp only [Bool.and_eq_true, decide_eq_true_eq, beq_iff_eq,
            Bool.not_eq_true'] at hg
          obtain ⟨⟨hj, heq⟩, hpop⟩ := hg
          have hpj : pop (v.getD j ' ') = false := by rw [heq]; exact hpop
          have hD : diagRun pop v (j + 1) = diagRun pop v j + 1 := by
            rw [diagRun_succ, hpj, if_neg Bool.false_ne_true]
          rw [hD]
          split
          · omega
          · rename_i hj0
            have := h1 (j - 1)
            have hj1 : j - 1 + 1 = j := by omega
            rw [hj1] at this
            omega
        · omega
      have hN5 : ∀ j, flmNext pop v[i] v row j ≤ diagRun pop v (i + 1) := by
        intro j
        unfold flmNext
        split
        · rename_i hg
          simp only [Bool.and_eq_true, decide_eq_true_eq, beq_iff_eq,
            Bool.not_eq_true'] at hg
          obtain ⟨⟨hj, heq⟩, hpop⟩ := hg
          have hpi : pop (v.getD i ' ') = false := by rw [hgetD]; exact hpop
          have hD : diagRun pop v (i + 1) = diagRun pop v i + 1 := by
            rw [diagRun_succ, hpi, if_neg Bool.false_ne_true]
          rw [hD]
          split
          · omega
          · have := h5 (j - 1)
            omega
        · omega
      have hN2 : flmNext pop v[i] v row i = diagRun pop v (i + 1) := by
        have hds : diagRun pop v (i + 1) = if pop v[i] then 0 else diagRun pop v i + 1 := by
          rw [diagRun_succ, hgetD]
        rw [hds]
        unfold flmNext
        cases hp : pop v[i] with
        | true =>
            rw [if_neg (by simp [hp]), if_pos rfl]
        | false =>
            rw [if_pos (by simp [hlt, hgetD, hp]), if_neg Bool.false_ne_true]
            rcases Nat.eq_zero_or_pos i with hz | hpos
            · subst hz; simp [diagRun]
            · rw [if_neg (by omega), h2 (i - 1) (by omega)]
      have hN3 : ∀ j, j < i → flmNext pop v[i] v row j ≤ K := by
        intro j hj
        exact le_trans (hN1 j) (h4 j hj)
      have hN2' : ∀ i', i + 1 = i' + 1 → flmNext pop v[i] v row i' = diagRun pop v (i + 1) := by
        intro i' hi'
        have : i' = i := by omega
        subst this
        exact hN2
      rcases le_or_lt (diagRun pop v (i + 1)) K with hcase | hcase
      · have hskip : flmScan i (flmNext pop v[i] v row) 0 v.length (d, d, K) = (d, d, K) := by
          refine flmScan_skip i _ v.length 0 (d, d, K) (fun e he => ?_)
          show flmNext pop v[i] v row (0 + e) ≤ K
          exact le_trans (hN5 (0 + e)) hcase
        rw [hskip]
        exact ih (i + 1) (flmNext pop v[i] v row) d K (by omega) (by omega)
          hN1 hN5 hN2' (by omega)
          (fun t ht => by
            rcases Nat.lt_or_ge t i with h | h
            · exact h4 t h
            · have : t = i := by omega
              subst this
              exact hcase)
      · have hhit := flmScan_hit i v.length (flmNext pop v[i] v row) d K
          (diagRun pop v (i + 1)) hN3 hN2 hcase hN5 hlt
        rw [hhit]
        have hR : diagRun pop v (i + 1) ≤ i + 1 := diagRun_le pop v (i + 1)
        exact ih (i + 1) (flmNext pop v[i] v row) (i + 1 - diagRun pop v (i + 1))
          (diagRun pop v (i + 1)) (by omega) (by omega) hN1 hN5 hN2' (by omega)
          (fun t ht => by
            rcases Nat.lt_or_ge t i with h | h
            · exact le_trans (h4 t h) (le_of_lt hcase)
            · have : t = i := by omega
              subst this
              exact Nat.le_refl _)

theorem flmExtendBack_self (v : List Char) :
    ∀ (f d K : Nat), d ≤ f →
      flmExtendBack v v f (d, d, K) = (0, 0, K + d) := by
  intro f
  induction f with
  | zero =>
      intro d K hd
      have : d = 0 := by omega
      subst this
      rfl
  | succ f ih =>
      intro d K hd
      cases d with
      | zero =>
          unfold flmExtendBack
          rw [if_neg (by simp)]
          rfl
      | succ e =>
          unfold flmExtendBack
          rw [if_pos (by simp)]
          dsimp only
          rw [show e + 1 - 1 = e from by omega,
            ih e (K + 1) (by omega),
            show K + 1 + e = K + (e + 1) from by omega]

theorem flmExtendFwd_self (v : List Char) :
    ∀ (f s : Nat), s ≤ v.length → v.length - s ≤ f →
      flmExtendFwd v v f (0, 0, s) = (0, 0, v.length) := by
  intro f
  induction f with
  | zero =>
      intro s hs hf
      have : s = v.length := by omega
      subst this
      rfl
  | succ f ih =>
      intro s hs hf
      rcases Nat.lt_or_ge s v.length with hlt | hge
      · unfold flmExtendFwd
        rw [if_pos (by simp [hlt])]
        exact ih (s + 1) (by omega) (by omega)
      · have : s = v.length := by omega
        subst this
        unfold flmExtendFwd
        rw [if_neg (by simp)]

theorem flm_self (pop : Char → Bool) (v : List Char) :
    flm pop v v = (0, 0, v.length) := by
  unfold flm
  obtain ⟨d, K, hEq, hLe⟩ := flmLoop_self_diag pop v v.length 0 (fun _ => 0) 0 0
    rfl (Nat.zero_le _) (fun j => Nat.zero_le _) (fun j => Nat.le_refl 0)
    (fun i' hi' => by omega) (Nat.le_refl 0) (fun t ht => by omega)
  rw [show v.drop 0 = v from List.drop_zero v] at hEq
  rw [hEq, flmExtendBack_self v v.length d K (by omega),
    flmExtendFwd_self v v.length (K + d) (by omega) (by omega)]

theorem matchTotalF_nil (pop : Char → Bool) : ∀ f, matchTotalF pop f [] [] = 0 := by
  intro f
  cases f with
  | zero => rfl
  | succ f => rfl

theorem matchTotal_self (v : List Char) : matchTotal v v = v.length := by
  cases v with
  | nil => rfl
  | cons c t =>
      unfold matchTotal
      unfold matchTotalF
      rw [flm_self]
      dsimp only
      rw [if_neg (by simp)]
      simp [matchTotalF_nil, List.drop_length]

theorem flmNext_popular (pop : Char → Bool) (c : Char) (b : List Char)
    (row : Nat → Nat) (h : pop c = true) :
    ∀ j, flmNext pop c b row j = 0 := by
  intro j
  unfold flmNext
  rw [if_neg (by simp [h])]

theorem flmLoop_popular (pop : Char → Bool) (b : List Char) :
    ∀ (rest : List Char) (i : Nat) (row : Nat → Nat),
      (∀ c ∈ rest, pop c = true) →
      flmLoop pop b i rest row (0, 0, 0) = (0, 0, 0) := by
  intro rest
  induction rest with
  | nil => intro i row _; rfl
  | cons c t ih =>
      intro i row hall
      unfold flmLoop
      dsimp only
      rw [flmScan_skip i (flmNext pop c b row) b.length 0 (0, 0, 0) (fun e he => by
        rw [flmNext_popular pop c b row (hall c (by simp)) (0 + e)])]
      exact ih (i + 1) (flmNext pop c b row) (fun d hd => hall d (by simp [hd]))

theorem flmExtendBack_zeroed (a b : List Char) (K : Nat) :
    ∀ f, flmExtendBack a b f (0, 0, K) = (0, 0, K) := by
  intro f
  cases f with
  | zero => rfl
  | succ f =>
      unfold flmExtendBack
      rw [if_neg (by simp)]

theorem flmExtendFwd_stop (a b : List Char) (best : Nat × Nat × Nat)
    (h : (best.1 + best.2.2 < a.length && best.2.1 + best.2.2 < b.length
          && (a.getD (best.1 + best.2.2) ' ' == b.getD (best.2.1 + best.2.2) ' ')) = false) :
    ∀ f, flmExtendFwd a b f best = best := by
  intro f
  cases f with
  | zero => rfl
  | succ f =>
      unfold flmExtendFwd
      rw [h, if_neg Bool.false_ne_true]

set_option maxRecDepth 2000 in
/-- The autojunk purge is live in the embedding: against a 200-character
second string in which both `x` (4 occurrences) and `y` (196 occurrences)
exceed the popularity threshold `200 / 100 + 1 = 3`, the query `"xxxx"` scores
`0` — the `j2len` sweep can never start a block on a purged character and the
extension loops have no block to widen.  Python agrees:
`SequenceMatcher(None, "xxxx", "y"*196 + "x"*4).ratio() == 0.0`. -/
theorem similarity_autojunk_purges :
    similarity (String.mk (List.replicate 4 'x'))
      (String.mk (List.replicate 196 'y' ++ List.replicate 4 'x')) = 0 := by
  have hflm : flm (autojunkPopular (List.replicate 196 'y' ++ List.replicate 4 'x'))
      (List.replicate 4 'x') (List.replicate 196 'y' ++ List.replicate 4 'x')
      = (0, 0, 0) := by
    unfold flm
    rw [flmLoop_popular (autojunkPopular (List.replicate 196 'y' ++ List.replicate 4 'x'))
        (List.replicate 196 'y' ++ List.replicate 4 'x') (List.replicate 4 'x') 0
        (fun _ => 0) (fun c hc => by
          have hcx : c = 'x' := List.eq_of_mem_replicate hc
          rw [hcx]
          decide),
      flmExtendBack_zeroed,
      flmExtendFwd_stop _ _ _ (by decide)]
  have hM : matchTotal (List.replicate 4 'x')
      (List.replicate 196 'y' ++ List.replicate 4 'x') = 0 := by
    unfold matchTotal
    unfold matchTotalF
    rw [hflm]
    dsimp only
    rw [if_pos rfl]
  unfold similarity ratioL
  dsimp only
  rw [hM]
  rw [if_neg (by decide)]
  norm_num

end Keelie

open Keelie in
/-- C9 (amended).  The whole-string similarity scorer is reflexive at 1:
`similarity a a = 1` for every string, including the empty string (where the
ratio of two empty inputs is defined as 1).  Symmetry, the claim's other half,
fails — see the counterexample. -/
theorem similarity_reflexive_one (a : String) : similarity a a = 1 := by
  unfold similarity ratioL
  rw [matchTotal_self]
  rcases Nat.eq_zero_or_pos a.data.length with h | h
  · simp [h]
  · rw [if_neg (by omega),
      show ((a.data.length : ℚ) + a.data.length) = 2 * a.data.length from by ring]
    have h2 : (2 * (a.data.length : ℚ)) ≠ 0 := by
      have hz : a.data.length ≠ 0 := by omega
      exact mul_ne_zero two_ne_zero (by exact_mod_cast hz)
    exact div_self h2
